import Mathlib

/-!
# Debugger client connection (`src/app/client-connection.js`)

A shallow embedding of the `Connection` class and of its three socket event
handlers (`onopen`, `onclose_and_error`, `onmessage`).

* The mutable fields of the connection and of the objects it writes to (the
  debugger object, the session, the chart) are gathered in `Conn`.
* Calls to collaborators that only produce an effect (loggers, panels, the
  socket) are appended, in program order, to `Conn.trace`.
* Values read from collaborators that this file never writes are taken from
  `Env`.
* A JavaScript exception leaves every assignment made before it in place, so a
  handler yields an `Outcome`: it returned, or it threw, and in both cases the
  state it left behind.
-/

namespace ClientConnection

/-- A byte array (`Uint8Array`): its elements in order. -/
abbrev Bytes := List Nat

/-- Values of `ENGINE_MODE` (imported from `client-debugger`). -/
inductive EngineMode where
  | RUN
  | BREAKPOINT
  | CLIENT_SOURCE
  | DISCONNECTED
  deriving DecidableEq, Repr

/-- Constants imported from `client-debugger`: `JERRY_DEBUGGER_VERSION`, the
`PROTOCOL.SERVER` codes and the `PROTOCOL.CLIENT` codes this file names. Their
values are not part of this file, so they are parameters. -/
structure Protocol where
  JERRY_DEBUGGER_VERSION : Nat
  JERRY_DEBUGGER_CONFIGURATION : Nat
  JERRY_DEBUGGER_PARSE_ERROR : Nat
  JERRY_DEBUGGER_BYTE_CODE_CP : Nat
  JERRY_DEBUGGER_PARSE_FUNCTION : Nat
  JERRY_DEBUGGER_BREAKPOINT_LIST : Nat
  JERRY_DEBUGGER_SOURCE_CODE : Nat
  JERRY_DEBUGGER_SOURCE_CODE_END : Nat
  JERRY_DEBUGGER_SOURCE_CODE_NAME : Nat
  JERRY_DEBUGGER_SOURCE_CODE_NAME_END : Nat
  JERRY_DEBUGGER_FUNCTION_NAME : Nat
  JERRY_DEBUGGER_FUNCTION_NAME_END : Nat
  JERRY_DEBUGGER_RELEASE_BYTE_CODE_CP : Nat
  JERRY_DEBUGGER_MEMSTATS_RECEIVE : Nat
  JERRY_DEBUGGER_BREAKPOINT_HIT : Nat
  JERRY_DEBUGGER_EXCEPTION_HIT : Nat
  JERRY_DEBUGGER_EXCEPTION_STR : Nat
  JERRY_DEBUGGER_EXCEPTION_STR_END : Nat
  JERRY_DEBUGGER_BACKTRACE : Nat
  JERRY_DEBUGGER_BACKTRACE_END : Nat
  JERRY_DEBUGGER_EVAL_RESULT : Nat
  JERRY_DEBUGGER_EVAL_RESULT_END : Nat
  JERRY_DEBUGGER_OUTPUT_RESULT : Nat
  JERRY_DEBUGGER_OUTPUT_RESULT_END : Nat
  JERRY_DEBUGGER_WAIT_FOR_SOURCE : Nat
  JERRY_DEBUGGER_EVAL_OK : Nat
  JERRY_DEBUGGER_EVAL_ERROR : Nat
  JERRY_DEBUGGER_OUTPUT_OK : Nat
  JERRY_DEBUGGER_OUTPUT_DEBUG : Nat
  JERRY_DEBUGGER_OUTPUT_WARNING : Nat
  JERRY_DEBUGGER_OUTPUT_ERROR : Nat
  JERRY_DEBUGGER_OUTPUT_TRACE : Nat
  JERRY_DEBUGGER_CONTINUE : Nat
  JERRY_DEBUGGER_STEP : Nat
  JERRY_DEBUGGER_NEXT : Nat
  JERRY_DEBUGGER_MEMSTATS : Nat

/-- The fields of a resolved breakpoint record that `onmessage` reads:
`breakpoint.func.sourceName`, `breakpoint.line`,
`breakpoint.offset.activeIndex` and the truth value of `breakpoint.at`. -/
structure Breakpoint where
  sourceName : String
  line : Int
  activeIndex : Int
  atFlag : Bool
  deriving DecidableEq, Repr

/-- A JavaScript value that is a number, a string or `undefined`; the type of
the `line` property of the entries of `getActiveBreakpoints()`. -/
inductive JsValue where
  | number (n : Int)
  | string (s : String)
  | undefined
  deriving DecidableEq, Repr

/-- Exceptions a handler can end with. -/
inductive JsError where
  /-- A property read or a call on `null` or `undefined`. -/
  | typeError
  /-- Thrown by `Util.assert`. -/
  | assertionFailed
  /-- Thrown by the breakpoint lookup `getBreakpoint` for an unknown reference. -/
  | lookupFailed
  /-- The object made by `new Error(message)`. -/
  | error (message : String)
  deriving DecidableEq, Repr

/-- Collaborator calls made for their effect, recorded in program order. -/
inductive Event where
  /-- The call `this._socket.abortConnection(message)`. -/
  | abortConnection (message : String)
  /-- The call `close()` on the WebSocket. -/
  | socketClose
  /-- The call `send(message)` on the WebSocket. -/
  | socketSend (message : Bytes)
  /-- The call `this._logger.info(text)`. -/
  | loggerInfo (text : String)
  /-- The call `this._logger.error(text, flag)`; `flag` is `false` when the
  second argument is left out. -/
  | loggerError (text : String) (flag : Bool)
  /-- The call `this._logger.debug(text, html, true)`. -/
  | loggerDebug (text : String) (html : String)
  /-- The call `this._output.info(text)`. -/
  | outputInfo (text : String)
  /-- The call `this._output.debug(text)`. -/
  | outputDebug (text : String)
  /-- The call `this._output.warning(text)`. -/
  | outputWarning (text : String)
  /-- The call `this._output.error(text)`. -/
  | outputError (text : String)
  /-- The call `this._debuggerObj.releaseFunction(message)`. -/
  | releaseFunction (message : Bytes)
  /-- The call `this._surface.updateBacktracePanel(frame, breakpoint, ..)`. -/
  | updateBacktracePanel (frame : Nat) (breakpoint : Breakpoint)
  /-- The call `this._debuggerObj.getBacktrace(..)`. -/
  | getBacktrace
  /-- The call `this._debuggerObj.encodeMessage(format, values)`. -/
  | encodeMessage (format : String) (values : List Nat)
  /-- The call `this._debuggerObj.sendClientSource()`. -/
  | sendClientSource
  /-- The call `this._session.addWatchExpressionValue(.., expr, value)`. -/
  | addWatchExpressionValue (expr : String) (value : String)
  /-- The call `this._session.updateWatchExpressions(..)`. -/
  | updateWatchExpressions
  /-- The call `this._session.highlightLine(type, line)`; `exception` tells
  `HIGHLIGHT_TYPE.EXCEPTION` from `HIGHLIGHT_TYPE.EXECUTE`. -/
  | highlightLine (exception : Bool) (line : Int)
  /-- The call `this._session.markBreakpointLines(..)`. -/
  | markBreakpointLines
  /-- The call `this._session.switchFile(fid)`. -/
  | switchFile (fid : Nat)
  /-- The call `this._chart.addNewDataPoints(data, label)`. -/
  | addNewDataPoints (data : List Nat) (label : String)
  /-- Any other call on `this._surface`, named by its text. -/
  | surface (call : String)
  /-- Any other call on `this._session`, named by its text. -/
  | session (call : String)
  /-- Any other call on `this._chart`, named by its text. -/
  | chart (call : String)
  /-- A jQuery or `Util.clearElement` call on the page, named by its text. -/
  | dom (call : String)
  /-- The call `setTimeout(.., 1000)` that schedules the reconnect click. -/
  | setTimeout
  deriving DecidableEq, Repr

/-- The WebSocket object made by the constructor. -/
structure WebSocket where
  url : String
  deriving DecidableEq, Repr

/-- A `ParseSource` object: the messages passed to its `receive`, in order. -/
structure ParseSource where
  received : List Bytes
  deriving DecidableEq, Repr

/-- Modelled from the spec: the debugger object of `client-debugger`, as the
fields behind the getters and setters that this file calls (`getCPointerSize`,
`setMaxMessageSize`, `setLittleEndian`, `setProtocolVersion`, `getEngineMode`,
`getBacktraceFrame`, `setLastBreakpointHit` and their counterparts). Each
setter stores its argument and each getter returns the stored value. -/
structure DebuggerObj where
  maxMessageSize : Nat
  cPointerSize : Nat
  littleEndian : Bool
  protocolVersion : Nat
  engineMode : EngineMode
  backtraceFrame : Nat
  lastBreakpointHit : Option Breakpoint
  deriving DecidableEq, Repr

/-- Modelled from the spec: the session fields that this file both writes and
reads back: the watch-in-progress flag (`isWatchInProgress`,
`stopWatchProgress`), the active file (`getActiveID`, `switchFile`), the chart
context string (`getBreakpointInfoToChart`, `setBreakpointInfoToChart`), the
last breakpoint (`setLastBreakpoint`), the upload flags (`isUploadStarted`,
`setUploadStarted`, `allowUploadAndRun`) and the context-reset flag
(`isContextReset`, `setContextReset`). The other session methods called here
are recorded as events and leave these fields as they are. -/
structure Session where
  watchInProgress : Bool
  activeID : Option Nat
  breakpointInfoToChart : Option String
  lastBreakpoint : Option Breakpoint
  uploadStarted : Bool
  uploadAndRunAllowed : Bool
  contextReset : Bool
  deriving DecidableEq, Repr

/-- Modelled from the spec: the chart flags that this file both writes and
reads back: record pending (`isRecordStarted`, `startRecord`) and chart active
(`isChartActive`, `setChartActive`). -/
structure Chart where
  recordStarted : Bool
  chartActive : Bool
  deriving DecidableEq, Repr

/-- What the handlers read from collaborators and never write: protocol
constants, the primitives of the debugger object, the breakpoint table, the
panel properties, the settings, the transpiler and the session queries. -/
structure Env where
  /-- The constants of `client-debugger`. -/
  P : Protocol
  /-- Whether `Util.assert` throws when its argument is falsy (`util.js` is
  not part of this file). -/
  assertThrows : Bool
  /-- The primitive `concatUint8Arrays(first, second)`; `none` is `null`. -/
  concatUint8Arrays : Option Bytes → Bytes → Option Bytes
  /-- The primitive `cesu8ToString(array)`. -/
  cesu8ToString : Bytes → String
  /-- The primitive `decodeMessage(format, message, offset)`, given the pointer
  size and the endianness flag stored in the debugger object. -/
  decodeMessage : Nat → Bool → String → Bytes → Nat → List Nat
  /-- The lookup `getBreakpoint(data).breakpoint`; `none` when the reference is
  not in the breakpoint table, where the lookup throws. -/
  getBreakpoint : List Nat → Option Breakpoint
  /-- The table `getSources()` indexed by a source name. -/
  getSources : String → Option String
  /-- The `line` property of each entry of `getActiveBreakpoints()`. -/
  getActiveBreakpoints : List JsValue
  /-- The primitive `breakpointToString(breakpoint)`. -/
  breakpointToString : Breakpoint → String
  /-- The answer of `isAlive()` of a sub-parser that received these messages. -/
  isAlive : List Bytes → Bool
  /-- The query `this._surface.getPanelProperty(name)`. -/
  getPanelProperty : String → Bool
  /-- The query `this._settings.getValue(name)` as a truth value. -/
  getValue : String → Bool
  /-- The `line` of `getOriginalPositionFor(file, line, 0)` of the transpiler. -/
  getOriginalPositionFor : String → Int → Int
  /-- The query `this._session.fileNameCheck(sourceName, true)`. -/
  fileNameCheck : String → Bool
  /-- The query `this._session.fileContentCheck(sourceName, source)`. -/
  fileContentCheck : String → Option String → Bool
  /-- The query `this._session.getFileIdByName(name)`. -/
  getFileIdByName : String → Option Nat
  /-- The query `this._session.getWatchCurrentExpr()`. -/
  getWatchCurrentExpr : String
  /-- The query `this._chart.containsData()`. -/
  containsData : Bool
  /-- The text `new Date().toISOString().slice(14, 21)`. -/
  isoTimeSlice : String

/-- The fields of a `Connection` (named as in the constructor) together with
the objects it was built with and the trace of effect calls so far. -/
structure Conn where
  _socket : Option WebSocket
  _parseObj : Option ParseSource
  _exceptionData : Option Bytes
  _evalResult : Option Bytes
  _outputResult : Option Bytes
  _debuggerObj : DebuggerObj
  _session : Session
  _chart : Chart
  /-- The answer of `this._transpiler.isEmpty()`. -/
  transpilerEmpty : Bool
  trace : List Event
  deriving DecidableEq, Repr

/-- How a method or handler ends, with the state it leaves behind. -/
inductive Outcome where
  | returned (c : Conn)
  | thrown (e : JsError) (c : Conn)
  deriving DecidableEq, Repr

/-- The state left behind, whether the handler returned or threw. -/
def Outcome.conn : Outcome → Conn
  | .returned c => c
  | .thrown _ c => c

/-- Whether the handler returned normally. -/
def Outcome.isReturned : Outcome → Bool
  | .returned _ => true
  | .thrown _ _ => false

/-- Sequencing: run `k` on the state of a normal completion, stop at a throw. -/
def Outcome.andThen (o : Outcome) (k : Conn → Outcome) : Outcome :=
  match o with
  | .returned c => k c
  | .thrown e c => .thrown e c

/-- Record one effect call. -/
def Conn.emit (c : Conn) (e : Event) : Conn :=
  { c with trace := c.trace ++ [e] }

/-- The call `this._debuggerObj.setEngineMode(mode)`. -/
def Conn.setEngineMode (c : Conn) (mode : EngineMode) : Conn :=
  { c with _debuggerObj := { c._debuggerObj with engineMode := mode } }

/-- The call `this._debuggerObj.setBacktraceFrame(frame)`. -/
def Conn.setBacktraceFrame (c : Conn) (frame : Nat) : Conn :=
  { c with _debuggerObj := { c._debuggerObj with backtraceFrame := frame } }

/-- The call `this._debuggerObj.setLastBreakpointHit(breakpoint)`. -/
def Conn.setLastBreakpointHit (c : Conn) (breakpoint : Breakpoint) : Conn :=
  { c with _debuggerObj := { c._debuggerObj with lastBreakpointHit := some breakpoint } }

/-- The call `this._session.stopWatchProgress()`. -/
def Conn.stopWatchProgress (c : Conn) : Conn :=
  { c with _session := { c._session with watchInProgress := false } }

/-- The text `s.split(sep)` on the characters of `s`, for a one-character
separator. -/
def splitChars (sep : Char) : List Char → List (List Char)
  | [] => [[]]
  | ch :: rest =>
    if ch = sep then [] :: splitChars sep rest
    else
      match splitChars sep rest with
      | [] => [[ch]]
      | part :: parts => (ch :: part) :: parts

/-- The array `s.split(sep)`. -/
def jsSplit (s : String) (sep : Char) : List String :=
  (splitChars sep s.data).map String.mk

/-- The expression `s.split(':')[1].split(' ')[0]`; `none` when `s` has no
colon, where `split` is called on `undefined` and a TypeError is thrown. -/
def lineField (s : String) : Option String :=
  match (jsSplit s ':')[1]? with
  | none => none
  | some rest => some ((jsSplit rest ' ').headD "")

/-- The expression `s.split('/').pop()`. -/
def lastComponent (s : String) : String :=
  (jsSplit s '/').getLastD ""

/-- The expression `s.replace(/\//g, '-').replace(/\./g, '-')`. -/
def dashed (s : String) : String :=
  String.mk ((s.data.map fun ch => if ch = '/' then '-' else ch).map
    fun ch => if ch = '.' then '-' else ch)

/-- The value of `s.length` in JavaScript: the number of UTF-16 code units of
`s`, two for each character outside the basic multilingual plane. -/
def jsLength (s : String) : Nat :=
  s.data.foldl (fun n ch => n + (if ch.toNat < 65536 then 1 else 2)) 0

/-- The constructor (lines 35-60): no sub-parser, empty reassembly buffers, a
fresh socket for the address, and the address logged. -/
def Connection.new (debuggerObject : DebuggerObj) (address : String)
    (session : Session) (chart : Chart) (transpilerEmpty : Bool) : Conn :=
  { _socket := some { url := "ws://" ++ address ++ "/jerry-debugger" }
    _parseObj := none
    _exceptionData := none
    _evalResult := none
    _outputResult := none
    _debuggerObj := debuggerObject
    _session := session
    _chart := chart
    transpilerEmpty := transpilerEmpty
    trace := [.loggerInfo ("ws://" ++ address ++ "/jerry-debugger")] }

/-- The method `close()` (lines 65-69). With `this._socket` equal to `null`
the call `this._socket.close()` throws a TypeError. -/
def Connection.close (c : Conn) : Outcome :=
  match c._socket with
  | none => .thrown .typeError c
  | some _ => .returned { (c.emit .socketClose) with _socket := none, _parseObj := none }

/-- The method `abort(message)` (lines 76-83) run on the connection itself. -/
def Connection.abort (env : Env) (c : Conn) (message : String) : Outcome :=
  if c._socket.isNone && env.assertThrows then .thrown .assertionFailed c
  else
    (Connection.close c).andThen fun c1 =>
      .thrown (.error message) (c1.emit (.loggerError ("Connection aborted: " ++ message) true))

/-- The call `this._socket.abortConnection(message)` made by `onmessage`.
Line 53 stores the method `abort` on the socket without binding it, so the
body of `abort` runs with `this` equal to the WebSocket: `this._socket` is
`undefined` in `Util.assert(this._socket)`, `this.close()` is the close method
of the WebSocket, and `this._logger` is `undefined`, so that
`this._logger.error(..)` throws a TypeError before `throw new Error(message)`
is reached. With `this._socket` of the connection equal to `null` the call
itself throws a TypeError. -/
def abortConnection (env : Env) (c : Conn) (message : String) : Outcome :=
  match c._socket with
  | none => .thrown .typeError c
  | some _ =>
    let c1 := c.emit (.abortConnection message)
    if env.assertThrows then .thrown .assertionFailed c1
    else .thrown .typeError (c1.emit .socketClose)

/-- The method `send(message)` (lines 90-98). -/
def Connection.send (env : Env) (c : Conn) (message : Bytes) : Outcome :=
  match c._socket with
  | none => .thrown .typeError c
  | some _ =>
    let c1 := c.emit (.socketSend message)
    if message[0]? = some env.P.JERRY_DEBUGGER_CONTINUE ∨
        message[0]? = some env.P.JERRY_DEBUGGER_STEP ∨
        message[0]? = some env.P.JERRY_DEBUGGER_NEXT then
      .returned (c1.setEngineMode .RUN)
    else .returned c1

/-- The handler `onopen` (lines 105-124). -/
def onopen (env : Env) (c : Conn) : Outcome :=
  let c1 := (c.emit (.loggerInfo "Connection created.")).setEngineMode .RUN
  let c2 := if env.getPanelProperty "chart.active" then
      c1.emit (.surface "toggleButton(true, chart-record-button)") else c1
  let c3 := if env.getPanelProperty "run.active" then
      c2.emit (.surface "updateRunPanel(RUN_UPDATE_TYPE.ALL)") else c2
  let c4 := if env.getPanelProperty "watch.active" then
      c3.emit (.surface "updateWatchPanelButtons()") else c3
  .returned ((c4.emit (.surface "disableActionButtons(false)")).emit
    (.surface "toggleButton(false, connect-to-button)"))

/-- The handler `onclose_and_error` (lines 131-174). -/
def onclose_and_error (env : Env) (c : Conn) : Outcome :=
  let c1 := match c._socket with
    | some _ => { c with _socket := none }.emit (.loggerInfo "Connection closed.")
    | none => c
  let c2 := c1.setEngineMode .DISCONNECTED
  let c3 := if env.getPanelProperty "chart.active" then
      let d := c2.emit (.chart "disableChartButtons()")
      if env.containsData then d.emit (.surface "toggleButton(true, chart-reset-button)") else d
    else c2
  let c4 := if env.getPanelProperty "watch.active" then
      (c3.emit (.surface "updateWatchPanelButtons()")).emit (.session "neutralizeWatchExpressions()")
    else c3
  let c5 := if env.getValue "debugger.transpileToES5" && !c4.transpilerEmpty then
      { c4 with transpilerEmpty := true }
    else c4
  let c6 := if c5._session.uploadStarted then
      { c5 with _session := { c5._session with uploadStarted := false } }
    else c5
  let c7 := (((((c6.emit (.session "reset()")).emit (.surface "reset()")).emit
    (.surface "disableActionButtons(true)")).emit
    (.surface "toggleButton(true, connect-to-button)")).emit
    (.surface "continueStopButtonState(CSICON.CONTINUE)"))
  if c7._session.contextReset then
    .returned ({ c7 with _session := { c7._session with contextReset := false } }.emit .setTimeout)
  else .returned c7

/-- The handshake (lines 189-209), run when `getCPointerSize()` is 0. The
four setters run only after the first check has passed, so the message has
five bytes there and the reads of bytes 1 to 4 are in range. -/
def configure (env : Env) (c : Conn) (message : Bytes) : Outcome :=
  if message[0]? ≠ some env.P.JERRY_DEBUGGER_CONFIGURATION ∨ message.length ≠ 5 then
    abortConnection env c "the first message must be configuration."
  else
    let c1 := { c with _debuggerObj := { c._debuggerObj with
      maxMessageSize := message.getD 1 0
      cPointerSize := message.getD 2 0
      littleEndian := decide (message.getD 3 0 ≠ 0)
      protocolVersion := message.getD 4 0 } }
    if c1._debuggerObj.cPointerSize ≠ 2 ∧ c1._debuggerObj.cPointerSize ≠ 4 then
      abortConnection env c1 "compressed pointer must be 2 or 4 bytes long."
    else if c1._debuggerObj.protocolVersion ≠ env.P.JERRY_DEBUGGER_VERSION then
      abortConnection env c1 "Incorrect debugger version from target."
    else .returned c1

/-- The method `receive(message)` of the sub-parser. -/
def ParseSource.receive (parseObj : ParseSource) (message : Bytes) : ParseSource :=
  { received := parseObj.received ++ [message] }

/-- Forwarding to the stored sub-parser (lines 211-217). -/
def forward (env : Env) (c : Conn) (parseObj : ParseSource) (message : Bytes) : Outcome :=
  let parseObj1 := parseObj.receive message
  if !env.isAlive parseObj1.received then .returned { c with _parseObj := none }
  else .returned { c with _parseObj := some parseObj1 }

/-- The parse-family arm (lines 220-236): a new sub-parser gets the message. -/
def onParse (env : Env) (c : Conn) (message : Bytes) : Outcome :=
  let parseObj : ParseSource := { received := [] }
  let parseObj1 := parseObj.receive message
  if !env.isAlive parseObj1.received then .returned { c with _parseObj := none }
  else .returned { c with _parseObj := some parseObj1 }

/-- The arm of `JERRY_DEBUGGER_RELEASE_BYTE_CODE_CP` (lines 238-241). -/
def onRelease (c : Conn) (message : Bytes) : Outcome :=
  .returned (c.emit (.releaseFunction message))

/-- The arm of `JERRY_DEBUGGER_MEMSTATS_RECEIVE` (lines 243-272). -/
def onMemstats (env : Env) (c : Conn) (message : Bytes) : Outcome :=
  let messagedata := env.decodeMessage c._debuggerObj.cPointerSize c._debuggerObj.littleEndian "IIIII" message 1
  let c1 := if c._chart.recordStarted then
      (((({ c with _chart := { recordStarted := false, chartActive := true } }.emit
        (.surface "toggleButton(false, chart-reset-button)")).emit
        (.surface "toggleButton(true, chart-stop-button)")).emit
        (.surface "toggleButton(false, chart-record-button)")).emit
        (.dom "#chart-record-button css background-color #16e016"))
    else c
  match c1._session.breakpointInfoToChart with
  | none => .returned c1
  | some info =>
    if info ≠ "" ∧ c1._chart.chartActive = true then
      match lineField info with
      | none => .thrown .typeError c1
      | some ln =>
        if c1._debuggerObj.engineMode = .BREAKPOINT then
          .returned (c1.emit (.addNewDataPoints messagedata
            ("#" ++ ln ++ ": " ++ env.isoTimeSlice)))
        else .returned (c1.emit (.addNewDataPoints messagedata ("ln: " ++ ln)))
    else .returned c1

/-- Source load and reload (lines 295-339) of the hit arm. The template of
the second group id reads `source.length`, a TypeError when the source table
has no entry for the name. -/
def sourceCheck (env : Env) (c : Conn) (breakpoint : Breakpoint) : Outcome :=
  let sourceName := breakpoint.sourceName
  let source := env.getSources sourceName
  if sourceName ≠ "" then
    if !env.fileNameCheck sourceName then
      let groupID := "gid-name-" ++ dashed sourceName ++ "-" ++ toString (jsLength sourceName)
      .returned ((c.emit (.loggerDebug ("The file " ++ sourceName ++ " is missing: ")
        ("load-from-jerry " ++ groupID))).emit (.dom "on click .load-from-jerry"))
    else if !env.getValue "debugger.transpileToES5" && c.transpilerEmpty then
      if !env.fileContentCheck sourceName source then
        match source with
        | none => .thrown .typeError c
        | some text =>
          let groupID := "gid-source-" ++ dashed sourceName ++ "-" ++ toString (jsLength text)
          .returned ((c.emit (.loggerDebug
            ("The opened " ++ sourceName ++ " source does not match with the source on the device! ")
            ("reload-from-jerry " ++ groupID))).emit (.dom "on click .reload-from-jerry"))
      else .returned c
    else .returned c
  else .returned c

/-- Switching to the file of the breakpoint (lines 341-346). -/
def switchToFile (env : Env) (c : Conn) (breakpoint : Breakpoint) : Conn :=
  match env.getFileIdByName breakpoint.sourceName with
  | none => c
  | some fid =>
    if some fid ≠ c._session.activeID then
      { c with _session := { c._session with activeID := some fid } }.emit (.switchFile fid)
    else c

/-- The line to highlight, `hlLine` (lines 348-353). -/
def highlightTarget (env : Env) (c : Conn) (breakpoint : Breakpoint) : Int :=
  if env.getValue "debugger.transpileToES5" && !c.transpilerEmpty then
    env.getOriginalPositionFor (lastComponent breakpoint.sourceName) breakpoint.line - 1
  else breakpoint.line

/-- The exception hint or the execute highlight (lines 355-370). -/
def showHit (env : Env) (c : Conn) (message : Bytes) (breakpoint : Breakpoint)
    (hlLine : Int) : Conn :=
  if message[0]? = some env.P.JERRY_DEBUGGER_EXCEPTION_HIT then
    let c1 := (c.emit (.highlightLine true hlLine)).emit
      (.loggerError "Exception throw detected!" false)
    match c1._exceptionData with
    | some data =>
      { c1.emit (.loggerError ("Exception hint: " ++ env.cesu8ToString data) true) with
        _exceptionData := none }
    | none => c1
  else
    match env.getFileIdByName breakpoint.sourceName with
    | none => c
    | some fid =>
      if some fid = c._session.activeID then
        (c.emit (.highlightLine false hlLine)).emit .markBreakpointLines
      else c

/-- The backtrace and watch panels (lines 372-380). -/
def refreshPanels (env : Env) (c : Conn) : Conn :=
  let c1 := if env.getPanelProperty "backtrace.active" then c.emit .getBacktrace else c
  if env.getPanelProperty "watch.active" then c1.emit .updateWatchExpressions else c1

/-- The memory-stats request for the chart (lines 392-393). -/
def chartRequest (env : Env) (c : Conn) (breakpoint : Breakpoint) : Conn :=
  { c.emit (.encodeMessage "B" [env.P.JERRY_DEBUGGER_MEMSTATS]) with
    _session := { c._session with
      breakpointInfoToChart := some (env.breakpointToString breakpoint) } }

/-- The chart context and the final log line (lines 382-402). The loop over
the active breakpoints returns from the handler at the first entry whose
`line` is strictly equal to the line text of the breakpoint. -/
def finishHit (env : Env) (c : Conn) (breakpoint : Breakpoint)
    (breakpointInfo : String) : Outcome :=
  let stopped := Event.loggerInfo ("Stopped " ++
    (if breakpoint.atFlag then "at " else "around ") ++ breakpointInfo ++
    env.breakpointToString breakpoint)
  if env.getPanelProperty "chart.active" then
    match env.getActiveBreakpoints with
    | [] => .returned ((chartRequest env c breakpoint).emit stopped)
    | _ :: _ =>
      match lineField (env.breakpointToString breakpoint) with
      | none => .thrown .typeError c
      | some key =>
        if env.getActiveBreakpoints.any (fun line => decide (line = JsValue.string key)) then
          .returned (c.emit (.surface "stopCommand()"))
        else .returned ((chartRequest env c breakpoint).emit stopped)
  else .returned (c.emit stopped)

/-- The arm of `JERRY_DEBUGGER_BREAKPOINT_HIT` and `JERRY_DEBUGGER_EXCEPTION_HIT`
(lines 274-403). -/
def onHit (env : Env) (c : Conn) (message : Bytes) : Outcome :=
  let c1 := c.setEngineMode .BREAKPOINT
  let breakpointData := env.decodeMessage c1._debuggerObj.cPointerSize c1._debuggerObj.littleEndian "CI" message 1
  match env.getBreakpoint breakpointData with
  | none => .thrown .lookupFailed c1
  | some breakpoint =>
    let c2 := c1.setLastBreakpointHit breakpoint
    let breakpointInfo := if breakpoint.activeIndex ≥ 0 then
      " breakpoint:" ++ toString breakpoint.activeIndex ++ " " else ""
    let c3 := (({ c2 with _session := { c2._session with lastBreakpoint := some breakpoint } }.emit
      (.surface "continueStopButtonState(CSICON.CONTINUE)")).emit
      (.surface "disableActionButtons(false)"))
    (sourceCheck env c3 breakpoint).andThen fun c4 =>
      let c5 := switchToFile env c4 breakpoint
      let hlLine := highlightTarget env c5 breakpoint
      let c6 := showHit env c5 message breakpoint hlLine
      finishHit env (refreshPanels env c6) breakpoint breakpointInfo

/-- The arm of `JERRY_DEBUGGER_EXCEPTION_STR` and `.._END` (lines 405-409). -/
def onExceptionStr (env : Env) (c : Conn) (message : Bytes) : Outcome :=
  .returned { c with _exceptionData := env.concatUint8Arrays c._exceptionData message }

/-- The record loop of the backtrace arm (lines 415-426), entered with the
current offset `i`: `for (..; i < message.byteLength; i += getCPointerSize() + 4)`.
Each pass decodes a reference at `i`, resolves it (the lookup throws for an
unknown reference), reports it with the current frame index and adds one to
the frame index. -/
def backtraceLoop (env : Env) (message : Bytes) (i : Nat) (c : Conn) : Outcome :=
  if i < message.length then
    let breakpointData := env.decodeMessage c._debuggerObj.cPointerSize c._debuggerObj.littleEndian "CI"
      message i
    match env.getBreakpoint breakpointData with
    | none => .thrown .lookupFailed c
    | some breakpoint =>
      let c1 := c.emit (.updateBacktracePanel c._debuggerObj.backtraceFrame breakpoint)
      let c2 := c1.setBacktraceFrame (c1._debuggerObj.backtraceFrame + 1)
      backtraceLoop env message (i + (c2._debuggerObj.cPointerSize + 4)) c2
  else .returned c
termination_by message.length - i
decreasing_by
  simp only [Conn.setBacktraceFrame, Conn.emit]
  omega

/-- The arm of `JERRY_DEBUGGER_BACKTRACE` and `.._END` (lines 411-433). -/
def onBacktrace (env : Env) (c : Conn) (message : Bytes) : Outcome :=
  let c1 := c.emit (.dom "clearElement #backtrace-table-body")
  (backtraceLoop env message 1 c1).andThen fun c2 =>
    if message[0]? = some env.P.JERRY_DEBUGGER_BACKTRACE_END then
      .returned (c2.setBacktraceFrame 0)
    else .returned c2

/-- The arm of `JERRY_DEBUGGER_EVAL_RESULT` and `.._END` (lines 435-478). The
last byte is read and cut off for both opcodes; reading `length` of a `null`
buffer is a TypeError. -/
def onEvalResult (env : Env) (c : Conn) (message : Bytes) : Outcome :=
  let c1 := { c with _evalResult := env.concatUint8Arrays c._evalResult message }
  match c1._evalResult with
  | none => .thrown .typeError c1
  | some evalResult =>
    let subType := evalResult.getLast?
    let c2 := { c1 with _evalResult := some evalResult.dropLast }
    if subType = some env.P.JERRY_DEBUGGER_EVAL_OK then
      if env.getPanelProperty "watch.active" && c2._session.watchInProgress then
        .returned { c2.stopWatchProgress.emit (.addWatchExpressionValue
          env.getWatchCurrentExpr (env.cesu8ToString evalResult.dropLast)) with
          _evalResult := none }
      else
        .returned { c2.emit (.loggerInfo (env.cesu8ToString evalResult.dropLast)) with
          _evalResult := none }
    else if subType = some env.P.JERRY_DEBUGGER_EVAL_ERROR then
      if env.getPanelProperty "watch.active" && c2._session.watchInProgress then
        .returned { c2.stopWatchProgress.emit (.addWatchExpressionValue
          env.getWatchCurrentExpr "") with _evalResult := none }
      else
        .returned { c2.emit (.loggerInfo ("Uncaught exception: " ++
          env.cesu8ToString evalResult.dropLast)) with _evalResult := none }
    else .returned c2

/-- The inner `switch (subType)` of the output arm (lines 489-505): the call
on `this._output` for a subtype, none for a subtype outside the five cases. -/
def outputCall (P : Protocol) (subType : Option Nat) (text : String) : List Event :=
  if subType = some P.JERRY_DEBUGGER_OUTPUT_OK then [.outputInfo text]
  else if subType = some P.JERRY_DEBUGGER_OUTPUT_DEBUG then [.outputDebug text]
  else if subType = some P.JERRY_DEBUGGER_OUTPUT_WARNING then [.outputWarning text]
  else if subType = some P.JERRY_DEBUGGER_OUTPUT_ERROR then [.outputError text]
  else if subType = some P.JERRY_DEBUGGER_OUTPUT_TRACE then [.outputInfo ("TRACE: " ++ text)]
  else []

/-- The arm of `JERRY_DEBUGGER_OUTPUT_RESULT` and `.._END` (lines 480-511). -/
def onOutputResult (env : Env) (c : Conn) (message : Bytes) : Outcome :=
  let c1 := { c with _outputResult := env.concatUint8Arrays c._outputResult message }
  if message[0]? = some env.P.JERRY_DEBUGGER_OUTPUT_RESULT_END then
    match c1._outputResult with
    | none => .thrown .typeError c1
    | some outputResult =>
      let subType := outputResult.getLast?
      let c2 := { c1 with _outputResult := some outputResult.dropLast }
      let c3 := { c2 with trace := c2.trace ++
        (outputCall env.P subType (env.cesu8ToString outputResult.dropLast)) }
      .returned { c3 with _outputResult := none }
  else .returned c1

/-- The arm of `JERRY_DEBUGGER_WAIT_FOR_SOURCE` (lines 513-525). -/
def onWaitForSource (env : Env) (c : Conn) : Outcome :=
  let c1 := (c.setEngineMode .CLIENT_SOURCE).emit (.surface "disableActionButtons(true)")
  let c2 := { c1 with _session := { c1._session with uploadAndRunAllowed := true } }
  let c3 := if env.getPanelProperty "run.active" then
      c2.emit (.surface "updateRunPanel(RUN_UPDATE_TYPE.BUTTON)") else c2
  .returned (c3.emit .sendClientSource)

/-- The arms of `switch (message[0])` (lines 219-531). -/
inductive Arm where
  | parse
  | release
  | memstats
  | hit
  | exceptionStr
  | backtrace
  | evalResult
  | outputResult
  | waitForSource
  | default
  deriving DecidableEq, Repr

/-- The arm chosen by `switch (message[0])`: the case labels are compared with
the value in the order in which they are written, and the first strictly
equal label selects the arm. `none` is `undefined`, equal to no label. -/
def switchArm (P : Protocol) (opcode : Option Nat) : Arm :=
  if opcode = some P.JERRY_DEBUGGER_PARSE_ERROR then .parse
  else if opcode = some P.JERRY_DEBUGGER_BYTE_CODE_CP then .parse
  else if opcode = some P.JERRY_DEBUGGER_PARSE_FUNCTION then .parse
  else if opcode = some P.JERRY_DEBUGGER_BREAKPOINT_LIST then .parse
  else if opcode = some P.JERRY_DEBUGGER_SOURCE_CODE then .parse
  else if opcode = some P.JERRY_DEBUGGER_SOURCE_CODE_END then .parse
  else if opcode = some P.JERRY_DEBUGGER_SOURCE_CODE_NAME then .parse
  else if opcode = some P.JERRY_DEBUGGER_SOURCE_CODE_NAME_END then .parse
  else if opcode = some P.JERRY_DEBUGGER_FUNCTION_NAME then .parse
  else if opcode = some P.JERRY_DEBUGGER_FUNCTION_NAME_END then .parse
  else if opcode = some P.JERRY_DEBUGGER_RELEASE_BYTE_CODE_CP then .release
  else if opcode = some P.JERRY_DEBUGGER_MEMSTATS_RECEIVE then .memstats
  else if opcode = some P.JERRY_DEBUGGER_BREAKPOINT_HIT then .hit
  else if opcode = some P.JERRY_DEBUGGER_EXCEPTION_HIT then .hit
  else if opcode = some P.JERRY_DEBUGGER_EXCEPTION_STR then .exceptionStr
  else if opcode = some P.JERRY_DEBUGGER_EXCEPTION_STR_END then .exceptionStr
  else if opcode = some P.JERRY_DEBUGGER_BACKTRACE then .backtrace
  else if opcode = some P.JERRY_DEBUGGER_BACKTRACE_END then .backtrace
  else if opcode = some P.JERRY_DEBUGGER_EVAL_RESULT then .evalResult
  else if opcode = some P.JERRY_DEBUGGER_EVAL_RESULT_END then .evalResult
  else if opcode = some P.JERRY_DEBUGGER_OUTPUT_RESULT then .outputResult
  else if opcode = some P.JERRY_DEBUGGER_OUTPUT_RESULT_END then .outputResult
  else if opcode = some P.JERRY_DEBUGGER_WAIT_FOR_SOURCE then .waitForSource
  else .default

/-- The opcode dispatch `switch (message[0])` (lines 219-531). -/
def dispatch (env : Env) (c : Conn) (message : Bytes) : Outcome :=
  match switchArm env.P message[0]? with
  | .parse => onParse env c message
  | .release => onRelease c message
  | .memstats => onMemstats env c message
  | .hit => onHit env c message
  | .exceptionStr => onExceptionStr env c message
  | .backtrace => onBacktrace env c message
  | .evalResult => onEvalResult env c message
  | .outputResult => onOutputResult env c message
  | .waitForSource => onWaitForSource env c
  | .default => abortConnection env c "unexpected message."

/-- The handler `onmessage` (lines 182-532) for the bytes of `event.data`.
Every call of `abortConnection` throws, so the statements after it do not
run. -/
def onmessage (env : Env) (c : Conn) (message : Bytes) : Outcome :=
  if message.length < 1 then abortConnection env c "message too short."
  else if c._debuggerObj.cPointerSize = 0 then configure env c message
  else
    match c._parseObj with
    | some parseObj => forward env c parseObj message
    | none => dispatch env c message

/-- Messages handled one after the other in arrival order, up to the first
handler that throws. -/
def onmessages (env : Env) (c : Conn) : List Bytes → Outcome
  | [] => .returned c
  | message :: rest => (onmessage env c message).andThen fun c1 => onmessages env c1 rest

/-- The case labels of `switch (message[0])`, in the order of the source. -/
def Protocol.serverOpcodes (P : Protocol) : List Nat :=
  [P.JERRY_DEBUGGER_PARSE_ERROR, P.JERRY_DEBUGGER_BYTE_CODE_CP,
   P.JERRY_DEBUGGER_PARSE_FUNCTION, P.JERRY_DEBUGGER_BREAKPOINT_LIST,
   P.JERRY_DEBUGGER_SOURCE_CODE, P.JERRY_DEBUGGER_SOURCE_CODE_END,
   P.JERRY_DEBUGGER_SOURCE_CODE_NAME, P.JERRY_DEBUGGER_SOURCE_CODE_NAME_END,
   P.JERRY_DEBUGGER_FUNCTION_NAME, P.JERRY_DEBUGGER_FUNCTION_NAME_END,
   P.JERRY_DEBUGGER_RELEASE_BYTE_CODE_CP, P.JERRY_DEBUGGER_MEMSTATS_RECEIVE,
   P.JERRY_DEBUGGER_BREAKPOINT_HIT, P.JERRY_DEBUGGER_EXCEPTION_HIT,
   P.JERRY_DEBUGGER_EXCEPTION_STR, P.JERRY_DEBUGGER_EXCEPTION_STR_END,
   P.JERRY_DEBUGGER_BACKTRACE, P.JERRY_DEBUGGER_BACKTRACE_END,
   P.JERRY_DEBUGGER_EVAL_RESULT, P.JERRY_DEBUGGER_EVAL_RESULT_END,
   P.JERRY_DEBUGGER_OUTPUT_RESULT, P.JERRY_DEBUGGER_OUTPUT_RESULT_END,
   P.JERRY_DEBUGGER_WAIT_FOR_SOURCE]

/-- The case labels of `switch (message[0])` with the arm each one opens, in
the order of the source. -/
def Protocol.cases (P : Protocol) : List (Nat × Arm) :=
  [(P.JERRY_DEBUGGER_PARSE_ERROR, .parse), (P.JERRY_DEBUGGER_BYTE_CODE_CP, .parse),
   (P.JERRY_DEBUGGER_PARSE_FUNCTION, .parse), (P.JERRY_DEBUGGER_BREAKPOINT_LIST, .parse),
   (P.JERRY_DEBUGGER_SOURCE_CODE, .parse), (P.JERRY_DEBUGGER_SOURCE_CODE_END, .parse),
   (P.JERRY_DEBUGGER_SOURCE_CODE_NAME, .parse), (P.JERRY_DEBUGGER_SOURCE_CODE_NAME_END, .parse),
   (P.JERRY_DEBUGGER_FUNCTION_NAME, .parse), (P.JERRY_DEBUGGER_FUNCTION_NAME_END, .parse),
   (P.JERRY_DEBUGGER_RELEASE_BYTE_CODE_CP, .release),
   (P.JERRY_DEBUGGER_MEMSTATS_RECEIVE, .memstats),
   (P.JERRY_DEBUGGER_BREAKPOINT_HIT, .hit), (P.JERRY_DEBUGGER_EXCEPTION_HIT, .hit),
   (P.JERRY_DEBUGGER_EXCEPTION_STR, .exceptionStr),
   (P.JERRY_DEBUGGER_EXCEPTION_STR_END, .exceptionStr),
   (P.JERRY_DEBUGGER_BACKTRACE, .backtrace), (P.JERRY_DEBUGGER_BACKTRACE_END, .backtrace),
   (P.JERRY_DEBUGGER_EVAL_RESULT, .evalResult), (P.JERRY_DEBUGGER_EVAL_RESULT_END, .evalResult),
   (P.JERRY_DEBUGGER_OUTPUT_RESULT, .outputResult),
   (P.JERRY_DEBUGGER_OUTPUT_RESULT_END, .outputResult),
   (P.JERRY_DEBUGGER_WAIT_FOR_SOURCE, .waitForSource)]

/-- The arm of the first case whose label is strictly equal to the value, the
default arm when there is none. -/
def firstMatch : List (Nat × Arm) → Option Nat → Arm
  | [], _ => .default
  | (label, arm) :: rest, opcode => if opcode = some label then arm else firstMatch rest opcode

/-- The texts logged by `this._logger.error(text, true)`, in order; within
`onmessage` this is the call that shows the exception hint. -/
def exceptionHints (trace : List Event) : List String :=
  trace.filterMap fun e =>
    match e with
    | .loggerError text true => some text
    | _ => none

/-- A step that leaves the debugger object and the exception buffer as they
are and logs no exception hint. -/
def Quiet (c c1 : Conn) : Prop :=
  c1._debuggerObj = c._debuggerObj ∧ c1._exceptionData = c._exceptionData ∧
  c1._parseObj = c._parseObj ∧ c1.transpilerEmpty = c.transpilerEmpty ∧
  exceptionHints c1.trace = exceptionHints c.trace

/-- The calls `updateBacktracePanel` for consecutive frame indices from `n`. -/
def frameReports (n : Nat) (breakpoints : List Breakpoint) : List Event :=
  (breakpoints.enumFrom n).map fun p => Event.updateBacktracePanel p.1 p.2

/-- Modelled from the spec: the primitive `concatUint8Arrays(first, second)`
of `client-debugger`, which is not part of this file. It appends the chunk of
the message `second` (its bytes after the opcode) to the open buffer `first`
and creates the buffer when there is none. -/
def concatUint8Arrays (first : Option Bytes) (second : Bytes) : Option Bytes :=
  match first with
  | none => some second.tail
  | some base => some (base ++ second.tail)

/-- Modelled from the spec: a numbering of the protocol constants, which are
not part of this file. The configuration opcode 1 and the version 3 are those
of the handshake scenario; the others are pairwise distinct opcodes and
subtype codes. -/
def sampleProtocol : Protocol :=
  { JERRY_DEBUGGER_VERSION := 3
    JERRY_DEBUGGER_CONFIGURATION := 1
    JERRY_DEBUGGER_PARSE_ERROR := 2
    JERRY_DEBUGGER_BYTE_CODE_CP := 3
    JERRY_DEBUGGER_PARSE_FUNCTION := 4
    JERRY_DEBUGGER_BREAKPOINT_LIST := 5
    JERRY_DEBUGGER_SOURCE_CODE := 7
    JERRY_DEBUGGER_SOURCE_CODE_END := 8
    JERRY_DEBUGGER_SOURCE_CODE_NAME := 9
    JERRY_DEBUGGER_SOURCE_CODE_NAME_END := 10
    JERRY_DEBUGGER_FUNCTION_NAME := 11
    JERRY_DEBUGGER_FUNCTION_NAME_END := 12
    JERRY_DEBUGGER_RELEASE_BYTE_CODE_CP := 14
    JERRY_DEBUGGER_MEMSTATS_RECEIVE := 15
    JERRY_DEBUGGER_BREAKPOINT_HIT := 16
    JERRY_DEBUGGER_EXCEPTION_HIT := 17
    JERRY_DEBUGGER_EXCEPTION_STR := 18
    JERRY_DEBUGGER_EXCEPTION_STR_END := 19
    JERRY_DEBUGGER_BACKTRACE := 20
    JERRY_DEBUGGER_BACKTRACE_END := 21
    JERRY_DEBUGGER_EVAL_RESULT := 22
    JERRY_DEBUGGER_EVAL_RESULT_END := 23
    JERRY_DEBUGGER_OUTPUT_RESULT := 25
    JERRY_DEBUGGER_OUTPUT_RESULT_END := 26
    JERRY_DEBUGGER_WAIT_FOR_SOURCE := 24
    JERRY_DEBUGGER_EVAL_OK := 1
    JERRY_DEBUGGER_EVAL_ERROR := 2
    JERRY_DEBUGGER_OUTPUT_OK := 1
    JERRY_DEBUGGER_OUTPUT_DEBUG := 4
    JERRY_DEBUGGER_OUTPUT_WARNING := 3
    JERRY_DEBUGGER_OUTPUT_ERROR := 2
    JERRY_DEBUGGER_OUTPUT_TRACE := 5
    JERRY_DEBUGGER_CONTINUE := 11
    JERRY_DEBUGGER_STEP := 12
    JERRY_DEBUGGER_NEXT := 13
    JERRY_DEBUGGER_MEMSTATS := 5 }

/-- A breakpoint of the sample table. -/
def sampleBreakpoint (line : Nat) : Breakpoint :=
  { sourceName := "main.js", line := line, activeIndex := -1, atFlag := true }

/-- A sample environment: the sample numbering, the concatenation modelled
from the spec, byte-wise text decoding, a decoder that returns the bytes of
the record, a breakpoint table that knows the references whose first byte is
below 8, and panels that are all inactive. -/
def sampleEnv : Env :=
  { P := sampleProtocol
    assertThrows := true
    concatUint8Arrays := concatUint8Arrays
    cesu8ToString := fun bytes => String.mk (bytes.map Char.ofNat)
    decodeMessage := fun size _ _ message offset => (message.drop offset).take (size + 4)
    getBreakpoint := fun data =>
      match data with
      | [] => none
      | b :: _ => if b < 8 then some (sampleBreakpoint b) else none
    getSources := fun name => if name = "main.js" then some "var a = 1;" else none
    getActiveBreakpoints := []
    breakpointToString := fun b => b.sourceName ++ ":" ++ toString b.line
    isAlive := fun received => decide (received.length < 2)
    getPanelProperty := fun _ => false
    getValue := fun _ => false
    getOriginalPositionFor := fun _ line => line
    fileNameCheck := fun _ => true
    fileContentCheck := fun _ _ => true
    getFileIdByName := fun _ => some 0
    getWatchCurrentExpr := ""
    containsData := false
    isoTimeSlice := "00:00.0" }

/-- A debugger object before the handshake. -/
def freshDebugger : DebuggerObj :=
  { maxMessageSize := 0, cPointerSize := 0, littleEndian := false, protocolVersion := 0
    engineMode := .DISCONNECTED, backtraceFrame := 0, lastBreakpointHit := none }

/-- A connection as the constructor leaves it, awaiting configuration. -/
def freshConn : Conn :=
  Connection.new freshDebugger "localhost:5001"
    { watchInProgress := false, activeID := some 0, breakpointInfoToChart := none
      lastBreakpoint := none, uploadStarted := false, uploadAndRunAllowed := false
      contextReset := false }
    { recordStarted := false, chartActive := false } true

/-- A ready connection: pointer size 4, little endian, version 3, engine
running, no sub-parser and empty reassembly buffers. -/
def readyConn : Conn :=
  { freshConn with _debuggerObj := { freshDebugger with
      maxMessageSize := 64, cPointerSize := 4, littleEndian := true, protocolVersion := 3
      engineMode := .RUN } }

/-- The operations and events of a connection. -/
inductive Op where
  | onopen
  | onmessage (message : Bytes)
  | send (message : Bytes)
  | close
  | abort (message : String)
  | onclose_and_error
  deriving DecidableEq, Repr

/-- One operation or event run on a state. -/
def step (env : Env) (c : Conn) : Op → Outcome
  | .onopen => onopen env c
  | .onmessage message => onmessage env c message
  | .send message => Connection.send env c message
  | .close => Connection.close c
  | .abort message => Connection.abort env c message
  | .onclose_and_error => onclose_and_error env c

/-- The state after a sequence of operations and events, each run on the state
the one before left behind; an exception ends the operation that threw, not
the sequence. -/
def run (env : Env) (c : Conn) : List Op → Conn
  | [] => c
  | op :: rest => run env (step env c op).conn rest

/-! ## Basic facts -/

theorem abortConnection_not_returned (env : Env) (c : Conn) (reason : String) :
    (abortConnection env c reason).isReturned = false := by
  unfold abortConnection
  split
  · rfl
  · dsimp only
    split <;> rfl

theorem abortConnection_conn (env : Env) (c : Conn) (reason : String) (socket : WebSocket)
    (hs : c._socket = some socket) :
    (abortConnection env c reason).conn =
      { c with trace := c.trace ++ Event.abortConnection reason ::
        (if env.assertThrows then [] else [Event.socketClose]) } := by
  cases h : env.assertThrows <;> simp [abortConnection, hs, h, Outcome.conn, Conn.emit]

theorem firstMatch_getElem (cases : List (Nat × Arm)) (h : (cases.map Prod.fst).Nodup)
    (k : Nat) (hk : k < cases.length) :
    firstMatch cases (some cases[k].1) = cases[k].2 := by
  induction cases generalizing k with
  | nil => simp at hk
  | cons a rest ih =>
    obtain ⟨label, arm⟩ := a
    rw [List.map_cons, List.nodup_cons] at h
    cases k with
    | zero => simp [firstMatch]
    | succ n =>
      have hn : n < rest.length := by simpa using hk
      have hne : rest[n].1 ≠ label := by
        intro e
        apply h.1
        rw [← e]
        exact List.mem_map.2 ⟨rest[n], List.getElem_mem hn, rfl⟩
      simp [firstMatch, hne, ih h.2 n hn]

theorem switchArm_eq_firstMatch (P : Protocol) (opcode : Option Nat) :
    switchArm P opcode = firstMatch P.cases opcode := rfl

theorem serverOpcodes_eq (P : Protocol) : P.cases.map Prod.fst = P.serverOpcodes := rfl

/-- Under pairwise distinct case labels the label at position `k` of the
switch selects the arm written at that position. -/
theorem switchArm_label (P : Protocol) (h : P.serverOpcodes.Nodup) (k : Nat)
    (hk : k < P.cases.length) :
    switchArm P (some P.cases[k].1) = P.cases[k].2 := by
  rw [switchArm_eq_firstMatch]
  exact firstMatch_getElem P.cases (by rw [serverOpcodes_eq]; exact h) k hk

/-- A value equal to no case label selects the default arm. -/
theorem firstMatch_default (cases : List (Nat × Arm)) (opcode : Option Nat)
    (h : ∀ label ∈ cases.map Prod.fst, opcode ≠ some label) :
    firstMatch cases opcode = .default := by
  induction cases with
  | nil => rfl
  | cons a rest ih =>
    obtain ⟨label, arm⟩ := a
    have h1 : opcode ≠ some label := h label (by simp)
    have h2 : ∀ l ∈ rest.map Prod.fst, opcode ≠ some l := fun l hl =>
      h l (by rw [List.map_cons]; exact List.mem_cons_of_mem _ hl)
    simp [firstMatch, h1, ih h2]

theorem switchArm_release (P : Protocol) (h : P.serverOpcodes.Nodup) :
    switchArm P (some P.JERRY_DEBUGGER_RELEASE_BYTE_CODE_CP) = .release :=
  switchArm_label P h 10 (by simp [Protocol.cases])

theorem switchArm_hit (P : Protocol) (h : P.serverOpcodes.Nodup) :
    switchArm P (some P.JERRY_DEBUGGER_BREAKPOINT_HIT) = .hit ∧
    switchArm P (some P.JERRY_DEBUGGER_EXCEPTION_HIT) = .hit :=
  ⟨switchArm_label P h 12 (by simp [Protocol.cases]), switchArm_label P h 13 (by simp [Protocol.cases])⟩

theorem switchArm_exceptionStr (P : Protocol) (h : P.serverOpcodes.Nodup) :
    switchArm P (some P.JERRY_DEBUGGER_EXCEPTION_STR) = .exceptionStr ∧
    switchArm P (some P.JERRY_DEBUGGER_EXCEPTION_STR_END) = .exceptionStr :=
  ⟨switchArm_label P h 14 (by simp [Protocol.cases]), switchArm_label P h 15 (by simp [Protocol.cases])⟩

theorem switchArm_backtrace (P : Protocol) (h : P.serverOpcodes.Nodup) :
    switchArm P (some P.JERRY_DEBUGGER_BACKTRACE) = .backtrace ∧
    switchArm P (some P.JERRY_DEBUGGER_BACKTRACE_END) = .backtrace :=
  ⟨switchArm_label P h 16 (by simp [Protocol.cases]), switchArm_label P h 17 (by simp [Protocol.cases])⟩

theorem switchArm_evalResult (P : Protocol) (h : P.serverOpcodes.Nodup) :
    switchArm P (some P.JERRY_DEBUGGER_EVAL_RESULT) = .evalResult ∧
    switchArm P (some P.JERRY_DEBUGGER_EVAL_RESULT_END) = .evalResult :=
  ⟨switchArm_label P h 18 (by simp [Protocol.cases]), switchArm_label P h 19 (by simp [Protocol.cases])⟩

theorem switchArm_outputResult (P : Protocol) (h : P.serverOpcodes.Nodup) :
    switchArm P (some P.JERRY_DEBUGGER_OUTPUT_RESULT) = .outputResult ∧
    switchArm P (some P.JERRY_DEBUGGER_OUTPUT_RESULT_END) = .outputResult :=
  ⟨switchArm_label P h 20 (by simp [Protocol.cases]), switchArm_label P h 21 (by simp [Protocol.cases])⟩

theorem switchArm_waitForSource (P : Protocol) (h : P.serverOpcodes.Nodup) :
    switchArm P (some P.JERRY_DEBUGGER_WAIT_FOR_SOURCE) = .waitForSource :=
  switchArm_label P h 22 (by simp [Protocol.cases])

theorem sampleProtocol_nodup : sampleProtocol.serverOpcodes.Nodup := by decide

theorem onmessage_configure (env : Env) (c : Conn) (message : Bytes)
    (hne : message ≠ []) (h0 : c._debuggerObj.cPointerSize = 0) :
    onmessage env c message = configure env c message := by
  have hlen : ¬ message.length < 1 := by
    cases message with
    | nil => exact absurd rfl hne
    | cons a rest => simp
  simp [onmessage, hlen, h0]

theorem onmessage_dispatch (env : Env) (c : Conn) (message : Bytes)
    (hne : message ≠ []) (hready : c._debuggerObj.cPointerSize ≠ 0)
    (hp : c._parseObj = none) :
    onmessage env c message = dispatch env c message := by
  have hlen : ¬ message.length < 1 := by
    cases message with
    | nil => exact absurd rfl hne
    | cons a rest => simp
  simp [onmessage, hlen, hready, hp]

/-- The empty-message check (lines 185-187): in every connection state with an
open socket (awaiting configuration or ready, with or without a stored
sub-parser) the handler ends an empty message by the call `abortConnection('message too short.')`, which throws:
the handler does not return, and the state it leaves is the state before with
only that call (and the socket close made inside it) added to the trace, so
the message is neither taken as a configuration, nor forwarded to the
sub-parser, nor dispatched. -/
theorem empty_message_aborts (env : Env) (c : Conn) (socket : WebSocket)
    (hs : c._socket = some socket) :
    onmessage env c [] = abortConnection env c "message too short." ∧
    (onmessage env c []).isReturned = false ∧
    (onmessage env c []).conn =
      { c with trace := c.trace ++ Event.abortConnection "message too short." ::
        (if env.assertThrows then [] else [Event.socketClose]) } := by
  have h : onmessage env c [] = abortConnection env c "message too short." := by
    simp [onmessage]
  refine ⟨h, ?_, ?_⟩
  · rw [h]; exact abortConnection_not_returned env c _
  · rw [h]; exact abortConnection_conn env c _ socket hs

theorem empty_message_aborts_witness :
    freshConn._socket = some { url := "ws://localhost:5001/jerry-debugger" } ∧
    (onmessage sampleEnv freshConn [] =
        abortConnection sampleEnv freshConn "message too short." ∧
      (onmessage sampleEnv freshConn []).isReturned = false ∧
      (onmessage sampleEnv freshConn []).conn =
        { freshConn with trace := freshConn.trace ++
          Event.abortConnection "message too short." ::
          (if sampleEnv.assertThrows then [] else [Event.socketClose]) }) :=
  ⟨rfl, empty_message_aborts sampleEnv freshConn _ rfl⟩

/-- The checks of the handshake (lines 189-209): while the connection awaits
configuration (stored pointer size 0), the handler of a non-empty message
returns exactly when it is 5 bytes
long, starts with the CONFIGURATION opcode, has pointer-size byte 2 or 4 and
has the version byte JERRY_DEBUGGER_VERSION; every other first message ends
in a call of `abortConnection`, which throws. -/
theorem handshake_acceptance_exact (env : Env) (c : Conn) (message : Bytes)
    (socket : WebSocket) (hs : c._socket = some socket)
    (hne : message ≠ []) (h0 : c._debuggerObj.cPointerSize = 0) :
    ((onmessage env c message).isReturned = true ↔
      (message.length = 5 ∧
       message[0]? = some env.P.JERRY_DEBUGGER_CONFIGURATION ∧
       (message[2]? = some 2 ∨ message[2]? = some 4) ∧
       message[4]? = some env.P.JERRY_DEBUGGER_VERSION)) ∧
    ((onmessage env c message).isReturned = false →
      ∃ c1 reason, onmessage env c message = abortConnection env c1 reason ∧
        c1._socket = some socket ∧
        (onmessage env c message).conn.trace = c.trace ++ Event.abortConnection reason ::
          (if env.assertThrows then [] else [Event.socketClose])) := by
  rw [onmessage_configure env c message hne h0]
  unfold configure
  by_cases h1 : message[0]? ≠ some env.P.JERRY_DEBUGGER_CONFIGURATION ∨ message.length ≠ 5
  · rw [if_pos h1]
    refine ⟨?_, fun _ => ⟨c, _, rfl, hs, ?_⟩⟩
    · rw [abortConnection_not_returned]
      constructor
      · intro h; cases h
      · rintro ⟨hl, h0', -, -⟩
        rcases h1 with h1 | h1
        · exact absurd h0' h1
        · exact absurd hl h1
    · rw [abortConnection_conn env c _ socket hs]
  · rw [if_neg h1]
    have h1' : message[0]? = some env.P.JERRY_DEBUGGER_CONFIGURATION ∧ message.length = 5 := by
      constructor
      · by_contra h; exact h1 (Or.inl h)
      · by_contra h; exact h1 (Or.inr h)
    obtain ⟨hop, hl⟩ := h1'
    rcases message with _ | ⟨a, _ | ⟨b, _ | ⟨p, _ | ⟨e, _ | ⟨v, _ | ⟨g, rest⟩⟩⟩⟩⟩⟩ <;>
      simp at hl
    simp only [List.getD_cons_succ, List.getD_cons_zero]
    by_cases h2 : p ≠ 2 ∧ p ≠ 4
    · rw [if_pos h2]
      refine ⟨?_, fun _ => ⟨_, _, rfl, hs, ?_⟩⟩
      · rw [abortConnection_not_returned]
        simp
        intro _ h; rcases h with h | h
        · exact absurd h h2.1
        · exact absurd h h2.2
      · rw [abortConnection_conn env _ _ socket]
        exact hs
    · rw [if_neg h2]
      by_cases h3 : v ≠ env.P.JERRY_DEBUGGER_VERSION
      · rw [if_pos h3]
        refine ⟨?_, fun _ => ⟨_, _, rfl, hs, ?_⟩⟩
        · rw [abortConnection_not_returned]
          simp
          intro _ _; exact h3
        · rw [abortConnection_conn env _ _ socket]
          exact hs
      · rw [if_neg h3]
        refine ⟨?_, fun h => ?_⟩
        · simp [Outcome.isReturned]
          refine ⟨by simpa using hop, ?_, by simpa using h3⟩
          by_contra h; simp at h; exact h2 h
        · simp [Outcome.isReturned] at h

theorem handshake_acceptance_exact_witness :
    (onmessage sampleEnv freshConn [1, 64, 4, 1, 3]).isReturned = true ∧
    (onmessage sampleEnv freshConn [1, 64, 4, 1, 4]).isReturned = false :=
  ⟨(handshake_acceptance_exact sampleEnv freshConn [1, 64, 4, 1, 3] _ rfl (by decide) rfl).1.2
      (by decide),
   Bool.eq_false_iff.2 fun h =>
    absurd ((handshake_acceptance_exact sampleEnv freshConn [1, 64, 4, 1, 4] _ rfl
      (by decide) rfl).1.1 h).2.2.2 (by decide)⟩

/-- The default arm (lines 527-530): in a ready state with no stored
sub-parser, a non-empty message whose first byte is none of the case labels of the switch ends in the call
`abortConnection('unexpected message.')`, which throws, with nothing else
done; a CONFIGURATION message received after the handshake is such a message
whenever the configuration opcode is none of the case labels. -/
theorem unexpected_opcode_aborts (env : Env) (c : Conn) (message : Bytes)
    (socket : WebSocket) (hs : c._socket = some socket)
    (hne : message ≠ []) (hready : c._debuggerObj.cPointerSize ≠ 0)
    (hp : c._parseObj = none) :
    ((∀ label ∈ env.P.serverOpcodes, message[0]? ≠ some label) →
      onmessage env c message = abortConnection env c "unexpected message." ∧
      (onmessage env c message).isReturned = false ∧
      (onmessage env c message).conn =
        { c with trace := c.trace ++ Event.abortConnection "unexpected message." ::
          (if env.assertThrows then [] else [Event.socketClose]) }) ∧
    (env.P.JERRY_DEBUGGER_CONFIGURATION ∉ env.P.serverOpcodes →
      message[0]? = some env.P.JERRY_DEBUGGER_CONFIGURATION →
      onmessage env c message = abortConnection env c "unexpected message.") := by
  have key : (∀ label ∈ env.P.serverOpcodes, message[0]? ≠ some label) →
      onmessage env c message = abortConnection env c "unexpected message." := by
    intro hop
    rw [onmessage_dispatch env c message hne hready hp]
    unfold dispatch
    rw [switchArm_eq_firstMatch, firstMatch_default env.P.cases _ hop]
  refine ⟨fun hop => ⟨key hop, ?_, ?_⟩, fun hconf h0 => key ?_⟩
  · rw [key hop]; exact abortConnection_not_returned env c _
  · rw [key hop]; exact abortConnection_conn env c _ socket hs
  · intro label hl e
    rw [h0] at e
    exact hconf (by rw [Option.some.inj e]; exact hl)

theorem unexpected_opcode_aborts_witness :
    readyConn._socket = some { url := "ws://localhost:5001/jerry-debugger" } ∧
    onmessage sampleEnv readyConn [1, 64, 4, 1, 3] =
      abortConnection sampleEnv readyConn "unexpected message." ∧
    onmessage sampleEnv readyConn [200] =
      abortConnection sampleEnv readyConn "unexpected message." :=
  ⟨rfl,
   (unexpected_opcode_aborts sampleEnv readyConn [1, 64, 4, 1, 3] _ rfl (by decide)
      (by decide) rfl).2 (by decide) rfl,
   ((unexpected_opcode_aborts sampleEnv readyConn [200] _ rfl (by decide)
      (by decide) rfl).1 (by decide)).1⟩

/-- C3: in a ready state with a stored sub-parser, every non-empty message,
whatever its first byte, is passed unchanged to `receive` of the sub-parser
exactly once (the messages it has received grow by this one message); the
handler returns without an abort and without any opcode dispatch (engine
mode, the three buffers, the backtrace frame index and the trace are as
before), and the sub-parser is kept exactly when it reports `isAlive()`. -/
theorem forward_takes_precedence (env : Env) (c : Conn) (parseObj : ParseSource)
    (message : Bytes) (hne : message ≠ []) (hready : c._debuggerObj.cPointerSize ≠ 0)
    (hp : c._parseObj = some parseObj) :
    onmessage env c message =
      .returned { c with _parseObj :=
        (if env.isAlive (parseObj.received ++ [message]) then
          some { received := parseObj.received ++ [message] }
        else none) } := by
  have hlen : ¬ message.length < 1 := by
    cases message with
    | nil => exact absurd rfl hne
    | cons a rest => simp
  simp only [onmessage, hlen, if_false, hready, hp, forward, ParseSource.receive]
  cases env.isAlive (parseObj.received ++ [message]) <;> simp

theorem forward_takes_precedence_witness :
    onmessage sampleEnv { readyConn with _parseObj := some { received := [] } } [200, 1] =
      .returned { { readyConn with _parseObj := some { received := [] } } with _parseObj :=
        (if sampleEnv.isAlive (([] : List Bytes) ++ [[200, 1]]) then
          some { received := [] ++ [[200, 1]] }
        else none) } :=
  forward_takes_precedence sampleEnv { readyConn with _parseObj := some { received := [] } }
    { received := [] } [200, 1] (by decide) (by decide) rfl

theorem Quiet.refl (c : Conn) : Quiet c c := ⟨rfl, rfl, rfl, rfl, rfl⟩

theorem Quiet.trans {a b c : Conn} (h1 : Quiet a b) (h2 : Quiet b c) : Quiet a c :=
  ⟨h2.1.trans h1.1, h2.2.1.trans h1.2.1, h2.2.2.1.trans h1.2.2.1,
    h2.2.2.2.1.trans h1.2.2.2.1, h2.2.2.2.2.trans h1.2.2.2.2⟩

theorem exceptionHints_append (s t : List Event) :
    exceptionHints (s ++ t) = exceptionHints s ++ exceptionHints t := by
  simp [exceptionHints, List.filterMap_append]

theorem sourceCheck_quiet (env : Env) (c : Conn) (breakpoint : Breakpoint) :
    Quiet c (sourceCheck env c breakpoint).conn := by
  unfold sourceCheck
  simp only
  split_ifs
  · simp [Quiet, Outcome.conn, Conn.emit, exceptionHints]
  · split <;> simp [Quiet, Outcome.conn, Conn.emit, exceptionHints]
  · exact Quiet.refl c
  · exact Quiet.refl c
  · exact Quiet.refl c

theorem sourceCheck_returned (env : Env) (c : Conn) (breakpoint : Breakpoint)
    (hsrc : env.getSources breakpoint.sourceName ≠ none) :
    sourceCheck env c breakpoint = .returned (sourceCheck env c breakpoint).conn := by
  unfold sourceCheck
  simp only
  split_ifs
  · rfl
  · split
    · rename_i h; exact absurd h hsrc
    · rfl
  · rfl
  · rfl
  · rfl

theorem switchToFile_quiet (env : Env) (c : Conn) (breakpoint : Breakpoint) :
    Quiet c (switchToFile env c breakpoint) := by
  unfold switchToFile
  split
  · exact Quiet.refl c
  · split_ifs
    · simp [Quiet, Conn.emit, exceptionHints]
    · exact Quiet.refl c

theorem refreshPanels_quiet (env : Env) (c : Conn) : Quiet c (refreshPanels env c) := by
  unfold refreshPanels
  simp only
  split_ifs <;> simp [Quiet, Conn.emit, exceptionHints]

theorem finishHit_quiet (env : Env) (c : Conn) (breakpoint : Breakpoint) (info : String) :
    Quiet c (finishHit env c breakpoint info).conn := by
  unfold finishHit
  cases h1 : env.getPanelProperty "chart.active"
  · simp [Quiet, Outcome.conn, Conn.emit, exceptionHints]
  · cases h2 : env.getActiveBreakpoints with
    | nil => simp [Quiet, Outcome.conn, Conn.emit, exceptionHints, chartRequest]
    | cons v rest =>
      cases h3 : lineField (env.breakpointToString breakpoint) with
      | none => simp [Quiet, Outcome.conn]
      | some key =>
        cases h4 : (v :: rest).any (fun line => decide (line = JsValue.string key)) <;>
          simp [Quiet, Outcome.conn, Conn.emit, exceptionHints, chartRequest, h4]

theorem showHit_debugger (env : Env) (c : Conn) (message : Bytes) (breakpoint : Breakpoint)
    (line : Int) :
    (showHit env c message breakpoint line)._debuggerObj = c._debuggerObj ∧
    (showHit env c message breakpoint line)._parseObj = c._parseObj ∧
    (showHit env c message breakpoint line).transpilerEmpty = c.transpilerEmpty := by
  unfold showHit
  split_ifs
  · simp only [Conn.emit]
    split <;> simp
  · split
    · simp
    · split_ifs <;> simp [Conn.emit]

theorem showHit_exception (env : Env) (c : Conn) (message : Bytes) (breakpoint : Breakpoint)
    (line : Int) (h : message[0]? = some env.P.JERRY_DEBUGGER_EXCEPTION_HIT) :
    (showHit env c message breakpoint line)._exceptionData = none ∧
    exceptionHints (showHit env c message breakpoint line).trace =
      exceptionHints c.trace ++
        (match c._exceptionData with
         | some data => ["Exception hint: " ++ env.cesu8ToString data]
         | none => []) := by
  unfold showHit
  rw [if_pos h]
  simp only [Conn.emit]
  cases hd : c._exceptionData <;> simp [exceptionHints, List.filterMap_append]

/-- The state a hit message leaves behind when its reference resolves. -/
theorem onHit_debugger (env : Env) (c : Conn) (message : Bytes) (breakpoint : Breakpoint)
    (hres : env.getBreakpoint (env.decodeMessage c._debuggerObj.cPointerSize
      c._debuggerObj.littleEndian "CI" message 1) = some breakpoint) :
    (onHit env c message).conn._debuggerObj =
      { c._debuggerObj with engineMode := .BREAKPOINT, lastBreakpointHit := some breakpoint } ∧
    (onHit env c message).conn._parseObj = c._parseObj := by
  unfold onHit
  simp only [Conn.setEngineMode, Conn.setLastBreakpointHit, hres]
  generalize hc3 : Conn.emit _ _ = c3
  have e3 : c3._debuggerObj =
      { c._debuggerObj with engineMode := .BREAKPOINT, lastBreakpointHit := some breakpoint } ∧
      c3._parseObj = c._parseObj := by
    subst hc3; simp [Conn.emit]
  have q4 := sourceCheck_quiet env c3 breakpoint
  cases h4 : sourceCheck env c3 breakpoint with
  | thrown e c4 =>
    rw [h4] at q4
    simp only [Outcome.andThen, Outcome.conn] at q4 ⊢
    exact ⟨q4.1.trans e3.1, q4.2.2.1.trans e3.2⟩
  | returned c4 =>
    rw [h4] at q4
    simp only [Outcome.andThen, Outcome.conn] at q4
    have q5 := switchToFile_quiet env c4 breakpoint
    have q6 := showHit_debugger env (switchToFile env c4 breakpoint) message breakpoint
      (highlightTarget env (switchToFile env c4 breakpoint) breakpoint)
    have q7 := refreshPanels_quiet env (showHit env (switchToFile env c4 breakpoint) message
      breakpoint (highlightTarget env (switchToFile env c4 breakpoint) breakpoint))
    have q8 := finishHit_quiet env (refreshPanels env (showHit env
      (switchToFile env c4 breakpoint) message breakpoint
      (highlightTarget env (switchToFile env c4 breakpoint) breakpoint))) breakpoint
      (if breakpoint.activeIndex ≥ 0 then
        " breakpoint:" ++ toString breakpoint.activeIndex ++ " " else "")
    simp only [Outcome.andThen]
    exact ⟨q8.1.trans (q7.1.trans (q6.1.trans (q5.1.trans (q4.1.trans e3.1)))),
      q8.2.2.1.trans (q7.2.2.1.trans (q6.2.1.trans (q5.2.2.1.trans (q4.2.2.1.trans e3.2))))⟩

/-- The exception buffer and the hints after an exception hit that resolves
and whose source is in the source table. -/
theorem onHit_exception (env : Env) (c : Conn) (message : Bytes) (breakpoint : Breakpoint)
    (hhit : message[0]? = some env.P.JERRY_DEBUGGER_EXCEPTION_HIT)
    (hres : env.getBreakpoint (env.decodeMessage c._debuggerObj.cPointerSize
      c._debuggerObj.littleEndian "CI" message 1) = some breakpoint)
    (hsrc : env.getSources breakpoint.sourceName ≠ none) :
    (onHit env c message).conn._exceptionData = none ∧
    exceptionHints (onHit env c message).conn.trace =
      exceptionHints c.trace ++
        (match c._exceptionData with
         | some data => ["Exception hint: " ++ env.cesu8ToString data]
         | none => []) := by
  unfold onHit
  simp only [Conn.setEngineMode, Conn.setLastBreakpointHit, hres]
  generalize hc3 : Conn.emit _ _ = c3
  have e3 : c3._exceptionData = c._exceptionData ∧
      exceptionHints c3.trace = exceptionHints c.trace := by
    subst hc3; simp [Conn.emit, exceptionHints, List.filterMap_append]
  have q4 := sourceCheck_quiet env c3 breakpoint
  rw [sourceCheck_returned env c3 breakpoint hsrc]
  generalize (sourceCheck env c3 breakpoint).conn = c4 at q4 ⊢
  simp only [Outcome.andThen]
  have q5 := switchToFile_quiet env c4 breakpoint
  have q6 := showHit_exception env (switchToFile env c4 breakpoint) message breakpoint
    (highlightTarget env (switchToFile env c4 breakpoint) breakpoint) hhit
  have q7 := refreshPanels_quiet env (showHit env (switchToFile env c4 breakpoint) message
    breakpoint (highlightTarget env (switchToFile env c4 breakpoint) breakpoint))
  have q8 := finishHit_quiet env (refreshPanels env (showHit env
    (switchToFile env c4 breakpoint) message breakpoint
    (highlightTarget env (switchToFile env c4 breakpoint) breakpoint))) breakpoint
    (if breakpoint.activeIndex ≥ 0 then
      " breakpoint:" ++ toString breakpoint.activeIndex ++ " " else "")
  refine ⟨q8.2.1.trans (q7.2.1.trans q6.1), ?_⟩
  rw [q8.2.2.2.2, q7.2.2.2.2, q6.2, q5.2.2.2.2, q4.2.2.2.2, e3.2, q5.2.1, q4.2.1, e3.1]

/-- C7: in a ready state with no stored sub-parser, after a BREAKPOINT_HIT or
EXCEPTION_HIT message whose reference, decoded at offset 1, resolves in the
breakpoint table, the engine mode is BREAKPOINT whatever it was before and
the last breakpoint hit of the debugger is the resolved breakpoint, in the
state the handler leaves behind however it ends. -/
theorem hit_bookkeeping (env : Env) (c : Conn) (message : Bytes) (breakpoint : Breakpoint)
    (hnodup : env.P.serverOpcodes.Nodup)
    (hready : c._debuggerObj.cPointerSize ≠ 0) (hp : c._parseObj = none)
    (hop : message[0]? = some env.P.JERRY_DEBUGGER_BREAKPOINT_HIT ∨
      message[0]? = some env.P.JERRY_DEBUGGER_EXCEPTION_HIT)
    (hres : env.getBreakpoint (env.decodeMessage c._debuggerObj.cPointerSize
      c._debuggerObj.littleEndian "CI" message 1) = some breakpoint) :
    (onmessage env c message).conn._debuggerObj.engineMode = .BREAKPOINT ∧
    (onmessage env c message).conn._debuggerObj.lastBreakpointHit = some breakpoint := by
  have hne : message ≠ [] := by
    rintro rfl
    rcases hop with h | h <;> simp at h
  have harm : switchArm env.P message[0]? = .hit := by
    rcases hop with h | h <;> rw [h]
    · exact (switchArm_hit env.P hnodup).1
    · exact (switchArm_hit env.P hnodup).2
  rw [onmessage_dispatch env c message hne hready hp]
  unfold dispatch
  rw [harm]
  simp only
  rw [(onHit_debugger env c message breakpoint hres).1]
  exact ⟨rfl, rfl⟩

theorem hit_bookkeeping_witness :
    (onmessage sampleEnv { readyConn with _debuggerObj :=
        { readyConn._debuggerObj with engineMode := .CLIENT_SOURCE } }
      [16, 5, 0, 0, 0, 0, 0, 0, 0]).conn._debuggerObj.engineMode = .BREAKPOINT ∧
    (onmessage sampleEnv { readyConn with _debuggerObj :=
        { readyConn._debuggerObj with engineMode := .CLIENT_SOURCE } }
      [16, 5, 0, 0, 0, 0, 0, 0, 0]).conn._debuggerObj.lastBreakpointHit =
      some (sampleBreakpoint 5) :=
  hit_bookkeeping sampleEnv _ [16, 5, 0, 0, 0, 0, 0, 0, 0] (sampleBreakpoint 5)
    sampleProtocol_nodup (by decide) rfl (Or.inl rfl) (by decide)

theorem ne_nil_of_head (message : Bytes) (op : Nat) (h : message[0]? = some op) :
    message ≠ [] := by
  rintro rfl
  simp at h

theorem onmessage_exceptionStr (env : Env) (c : Conn) (message : Bytes)
    (hnodup : env.P.serverOpcodes.Nodup)
    (hready : c._debuggerObj.cPointerSize ≠ 0) (hp : c._parseObj = none)
    (hop : message[0]? = some env.P.JERRY_DEBUGGER_EXCEPTION_STR ∨
      message[0]? = some env.P.JERRY_DEBUGGER_EXCEPTION_STR_END) :
    onmessage env c message =
      .returned { c with _exceptionData := env.concatUint8Arrays c._exceptionData message } := by
  have hne : message ≠ [] := by
    rcases hop with h | h <;> exact ne_nil_of_head _ _ h
  have harm : switchArm env.P message[0]? = .exceptionStr := by
    rcases hop with h | h <;> rw [h]
    · exact (switchArm_exceptionStr env.P hnodup).1
    · exact (switchArm_exceptionStr env.P hnodup).2
  rw [onmessage_dispatch env c message hne hready hp]
  unfold dispatch
  rw [harm]
  rfl

theorem onmessages_exceptionStr (env : Env) (messages : List Bytes) (c : Conn)
    (hnodup : env.P.serverOpcodes.Nodup)
    (hready : c._debuggerObj.cPointerSize ≠ 0) (hp : c._parseObj = none)
    (hop : ∀ m ∈ messages, m[0]? = some env.P.JERRY_DEBUGGER_EXCEPTION_STR ∨
      m[0]? = some env.P.JERRY_DEBUGGER_EXCEPTION_STR_END) :
    onmessages env c messages =
      .returned { c with _exceptionData :=
        (messages.foldl env.concatUint8Arrays c._exceptionData) } := by
  induction messages generalizing c with
  | nil => rfl
  | cons m rest ih =>
    rw [onmessages, onmessage_exceptionStr env c m hnodup hready hp (hop m (by simp))]
    simp only [Outcome.andThen]
    rw [ih { c with _exceptionData := env.concatUint8Arrays c._exceptionData m } hready hp
      (fun x hx => hop x (List.mem_cons_of_mem _ hx))]
    rfl

/-- C8: in a ready state with no stored sub-parser and an empty exception
buffer, a run of EXCEPTION_STR fragments followed by one EXCEPTION_STR_END
fragment only accumulates them in arrival order through `concatUint8Arrays`
(the trace is as before, so nothing is output); the next EXCEPTION_HIT (with
a reference that resolves and a source that is in the source table) logs the
text decoded from that buffer exactly once as the exception hint and leaves
the buffer `null`, and a further EXCEPTION_HIT with no new fragments logs no
hint. -/
theorem exception_text_reassembly (env : Env) (c : Conn) (fragments : List Bytes)
    (last hit : Bytes) (breakpoint : Breakpoint)
    (hnodup : env.P.serverOpcodes.Nodup)
    (hready : c._debuggerObj.cPointerSize ≠ 0) (hp : c._parseObj = none)
    (hbuf : c._exceptionData = none)
    (hfrag : ∀ m ∈ fragments, m[0]? = some env.P.JERRY_DEBUGGER_EXCEPTION_STR)
    (hlast : last[0]? = some env.P.JERRY_DEBUGGER_EXCEPTION_STR_END)
    (hhit : hit[0]? = some env.P.JERRY_DEBUGGER_EXCEPTION_HIT)
    (hres : env.getBreakpoint (env.decodeMessage c._debuggerObj.cPointerSize
      c._debuggerObj.littleEndian "CI" hit 1) = some breakpoint)
    (hsrc : env.getSources breakpoint.sourceName ≠ none) :
    onmessages env c fragments =
      .returned { c with _exceptionData := fragments.foldl env.concatUint8Arrays none } ∧
    ∀ c1 : Conn,
      c1 = { c with _exceptionData := (fragments ++ [last]).foldl env.concatUint8Arrays none } →
      onmessages env c (fragments ++ [last]) = .returned c1 ∧
      (∀ data, c1._exceptionData = some data →
        exceptionHints (onmessage env c1 hit).conn.trace =
          exceptionHints c.trace ++ ["Exception hint: " ++ env.cesu8ToString data]) ∧
      (onmessage env c1 hit).conn._exceptionData = none ∧
      exceptionHints (onmessage env (onmessage env c1 hit).conn hit).conn.trace =
        exceptionHints (onmessage env c1 hit).conn.trace := by
  have hfrag2 : ∀ m ∈ fragments, m[0]? = some env.P.JERRY_DEBUGGER_EXCEPTION_STR ∨
      m[0]? = some env.P.JERRY_DEBUGGER_EXCEPTION_STR_END := fun m hm => Or.inl (hfrag m hm)
  have hall : ∀ m ∈ fragments ++ [last], m[0]? = some env.P.JERRY_DEBUGGER_EXCEPTION_STR ∨
      m[0]? = some env.P.JERRY_DEBUGGER_EXCEPTION_STR_END := by
    intro m hm
    rcases List.mem_append.1 hm with h | h
    · exact hfrag2 m h
    · rw [List.mem_singleton.1 h]; exact Or.inr hlast
  have harm : switchArm env.P hit[0]? = .hit := by
    rw [hhit]; exact (switchArm_hit env.P hnodup).2
  have hne : hit ≠ [] := ne_nil_of_head _ _ hhit
  refine ⟨?_, ?_⟩
  · rw [onmessages_exceptionStr env fragments c hnodup hready hp hfrag2, hbuf]
  · intro c1 hc1
    have h1 : onmessages env c (fragments ++ [last]) = .returned c1 := by
      rw [onmessages_exceptionStr env _ c hnodup hready hp hall, hbuf, hc1]
    have hready1 : c1._debuggerObj.cPointerSize ≠ 0 := by rw [hc1]; exact hready
    have hp1 : c1._parseObj = none := by rw [hc1]; exact hp
    have hres1 : env.getBreakpoint (env.decodeMessage c1._debuggerObj.cPointerSize
        c1._debuggerObj.littleEndian "CI" hit 1) = some breakpoint := by
      rw [hc1]; exact hres
    have htrace : c1.trace = c.trace := by rw [hc1]
    have hstep : onmessage env c1 hit = onHit env c1 hit := by
      rw [onmessage_dispatch env c1 hit hne hready1 hp1]
      unfold dispatch
      rw [harm]
    have hx := onHit_exception env c1 hit breakpoint hhit hres1 hsrc
    have hd := onHit_debugger env c1 hit breakpoint hres1
    rw [← hstep] at hx hd
    generalize onmessage env c1 hit = o1 at hx hd ⊢
    refine ⟨h1, ?_, hx.1, ?_⟩
    · intro data hdata
      rw [hx.2, hdata, htrace]
    · have hready2 : o1.conn._debuggerObj.cPointerSize ≠ 0 := by rw [hd.1]; exact hready1
      have hp2 : o1.conn._parseObj = none := by rw [hd.2]; exact hp1
      have hres2 : env.getBreakpoint (env.decodeMessage o1.conn._debuggerObj.cPointerSize
          o1.conn._debuggerObj.littleEndian "CI" hit 1) = some breakpoint := by
        rw [hd.1]; exact hres1
      have hstep2 : onmessage env o1.conn hit = onHit env o1.conn hit := by
        rw [onmessage_dispatch env o1.conn hit hne hready2 hp2]
        unfold dispatch
        rw [harm]
      rw [hstep2, (onHit_exception env o1.conn hit breakpoint hhit hres2 hsrc).2, hx.1]
      simp

theorem exception_text_reassembly_witness :
    exceptionHints (onmessage sampleEnv { readyConn with _exceptionData :=
        (([[18, 98, 97]] ++ [[19, 100]]).foldl sampleEnv.concatUint8Arrays none) }
      [17, 5, 0, 0, 0, 0, 0, 0, 0]).conn.trace =
      exceptionHints readyConn.trace ++
        ["Exception hint: " ++ sampleEnv.cesu8ToString [98, 97, 100]] :=
  ((exception_text_reassembly sampleEnv readyConn [[18, 98, 97]] [19, 100]
    [17, 5, 0, 0, 0, 0, 0, 0, 0] (sampleBreakpoint 5) sampleProtocol_nodup (by decide) rfl rfl
    (by decide) rfl rfl (by decide) (by decide)).2 _ rfl).2.1 [98, 97, 100] rfl

theorem label_ne (P : Protocol) (h : P.serverOpcodes.Nodup) (i j : Nat)
    (hi : i < P.serverOpcodes.length) (hj : j < P.serverOpcodes.length) (hij : i ≠ j) :
    P.serverOpcodes[i] ≠ P.serverOpcodes[j] :=
  fun e => hij ((List.Nodup.getElem_inj_iff h).1 e)

theorem onmessages_append (env : Env) (first second : List Bytes) (c : Conn) :
    onmessages env c (first ++ second) =
      (onmessages env c first).andThen fun c1 => onmessages env c1 second := by
  induction first generalizing c with
  | nil => rfl
  | cons m rest ih =>
    simp only [List.cons_append, onmessages]
    cases onmessage env c m with
    | returned c1 => simp only [Outcome.andThen]; exact ih c1
    | thrown e c1 => rfl

theorem onmessages_singleton (env : Env) (message : Bytes) (c : Conn) :
    onmessages env c [message] = onmessage env c message := by
  simp only [onmessages]
  cases onmessage env c message <;> rfl

theorem onmessage_outputResult (env : Env) (c : Conn) (message : Bytes)
    (hnodup : env.P.serverOpcodes.Nodup)
    (hready : c._debuggerObj.cPointerSize ≠ 0) (hp : c._parseObj = none)
    (hop : message[0]? = some env.P.JERRY_DEBUGGER_OUTPUT_RESULT) :
    onmessage env c message =
      .returned { c with _outputResult := env.concatUint8Arrays c._outputResult message } := by
  have hne : message ≠ [] := ne_nil_of_head _ _ hop
  have harm : switchArm env.P message[0]? = .outputResult := by
    rw [hop]; exact (switchArm_outputResult env.P hnodup).1
  have hend : message[0]? ≠ some env.P.JERRY_DEBUGGER_OUTPUT_RESULT_END := by
    rw [hop]
    intro e
    exact label_ne env.P hnodup 20 21 (by simp [Protocol.serverOpcodes])
      (by simp [Protocol.serverOpcodes]) (by decide) (Option.some.inj e)
  rw [onmessage_dispatch env c message hne hready hp]
  unfold dispatch
  rw [harm]
  simp only [onOutputResult, if_neg hend]

theorem onmessages_outputResult (env : Env) (messages : List Bytes) (c : Conn)
    (hnodup : env.P.serverOpcodes.Nodup)
    (hready : c._debuggerObj.cPointerSize ≠ 0) (hp : c._parseObj = none)
    (hop : ∀ m ∈ messages, m[0]? = some env.P.JERRY_DEBUGGER_OUTPUT_RESULT) :
    onmessages env c messages =
      .returned { c with _outputResult :=
        (messages.foldl env.concatUint8Arrays c._outputResult) } := by
  induction messages generalizing c with
  | nil => rfl
  | cons m rest ih =>
    rw [onmessages, onmessage_outputResult env c m hnodup hready hp (hop m (by simp))]
    simp only [Outcome.andThen]
    rw [ih { c with _outputResult := env.concatUint8Arrays c._outputResult m } hready hp
      (fun x hx => hop x (List.mem_cons_of_mem _ hx))]
    rfl

theorem onmessage_outputResultEnd (env : Env) (c : Conn) (message data : Bytes)
    (hnodup : env.P.serverOpcodes.Nodup)
    (hready : c._debuggerObj.cPointerSize ≠ 0) (hp : c._parseObj = none)
    (hop : message[0]? = some env.P.JERRY_DEBUGGER_OUTPUT_RESULT_END)
    (hdata : env.concatUint8Arrays c._outputResult message = some data) :
    onmessage env c message =
      .returned { c with
        _outputResult := none
        trace := c.trace ++
          (outputCall env.P data.getLast? (env.cesu8ToString data.dropLast)) } := by
  have hne : message ≠ [] := ne_nil_of_head _ _ hop
  have harm : switchArm env.P message[0]? = .outputResult := by
    rw [hop]; exact (switchArm_outputResult env.P hnodup).2
  rw [onmessage_dispatch env c message hne hready hp]
  unfold dispatch
  rw [harm]
  simp only [onOutputResult, if_pos hop, hdata]

/-- C9: in a ready state with no stored sub-parser and an empty output
buffer, OUTPUT_RESULT fragments only accumulate in arrival order through
`concatUint8Arrays` and cause no console output; the OUTPUT_RESULT_END
fragment takes the last byte of the concatenated buffer as the subtype,
passes the text decoded from the remaining bytes to the console sink in one
call chosen by the subtype (OK to info, DEBUG to debug, WARNING to warning,
ERROR to error, TRACE to info with the prefix TRACE) and leaves the output
buffer `null` whatever the subtype byte is. -/
theorem output_reassembly_routing (env : Env) (c : Conn) (fragments : List Bytes)
    (last data : Bytes)
    (hnodup : env.P.serverOpcodes.Nodup)
    (hsub : [env.P.JERRY_DEBUGGER_OUTPUT_OK, env.P.JERRY_DEBUGGER_OUTPUT_DEBUG,
      env.P.JERRY_DEBUGGER_OUTPUT_WARNING, env.P.JERRY_DEBUGGER_OUTPUT_ERROR,
      env.P.JERRY_DEBUGGER_OUTPUT_TRACE].Nodup)
    (hready : c._debuggerObj.cPointerSize ≠ 0) (hp : c._parseObj = none)
    (hbuf : c._outputResult = none)
    (hfrag : ∀ m ∈ fragments, m[0]? = some env.P.JERRY_DEBUGGER_OUTPUT_RESULT)
    (hlast : last[0]? = some env.P.JERRY_DEBUGGER_OUTPUT_RESULT_END)
    (hdata : (fragments ++ [last]).foldl env.concatUint8Arrays none = some data) :
    onmessages env c fragments =
      .returned { c with _outputResult := fragments.foldl env.concatUint8Arrays none } ∧
    onmessages env c (fragments ++ [last]) =
      .returned { c with
        _outputResult := none
        trace := c.trace ++
          (outputCall env.P data.getLast? (env.cesu8ToString data.dropLast)) } ∧
    (∀ text : String,
      outputCall env.P (some env.P.JERRY_DEBUGGER_OUTPUT_OK) text = [.outputInfo text] ∧
      outputCall env.P (some env.P.JERRY_DEBUGGER_OUTPUT_DEBUG) text = [.outputDebug text] ∧
      outputCall env.P (some env.P.JERRY_DEBUGGER_OUTPUT_WARNING) text =
        [.outputWarning text] ∧
      outputCall env.P (some env.P.JERRY_DEBUGGER_OUTPUT_ERROR) text = [.outputError text] ∧
      outputCall env.P (some env.P.JERRY_DEBUGGER_OUTPUT_TRACE) text =
        [.outputInfo ("TRACE: " ++ text)]) := by
  have h1 := onmessages_outputResult env fragments c hnodup hready hp hfrag
  rw [hbuf] at h1
  refine ⟨h1, ?_, ?_⟩
  · rw [onmessages_append, h1]
    simp only [Outcome.andThen]
    rw [onmessages_singleton]
    have hd : env.concatUint8Arrays (fragments.foldl env.concatUint8Arrays none) last =
        some data := by
      rw [← hdata, List.foldl_append]; rfl
    rw [onmessage_outputResultEnd env
      { c with _outputResult := fragments.foldl env.concatUint8Arrays none } last data hnodup
      hready hp hlast hd]
  · intro text
    simp only [List.nodup_cons, List.mem_cons, List.mem_singleton, List.not_mem_nil,
      not_or, List.nodup_nil] at hsub
    simp only [outputCall, Option.some.injEq]
    refine ⟨?_, ?_, ?_, ?_, ?_⟩ <;> (split_ifs <;> first | rfl | (exfalso; omega))

theorem output_reassembly_routing_witness :
    onmessages sampleEnv readyConn ([[25, 104, 105], [25, 32]] ++ [[26, 33, 3]]) =
      .returned { readyConn with
        _outputResult := none
        trace := readyConn.trace ++
          (outputCall sampleEnv.P ([104, 105, 32, 33, 3] : Bytes).getLast?
            (sampleEnv.cesu8ToString ([104, 105, 32, 33, 3] : Bytes).dropLast)) } :=
  (output_reassembly_routing sampleEnv readyConn [[25, 104, 105], [25, 32]] [26, 33, 3]
    [104, 105, 32, 33, 3] sampleProtocol_nodup (by decide) (by decide) rfl rfl (by decide)
    rfl rfl).2.1

theorem frameReports_cons (n : Nat) (b : Breakpoint) (rest : List Breakpoint) :
    frameReports n (b :: rest) = Event.updateBacktracePanel n b :: frameReports (n + 1) rest :=
  rfl

theorem frameReports_getElem? (n : Nat) (breakpoints : List Breakpoint) (t : Nat)
    (ht : t < breakpoints.length) :
    (frameReports n breakpoints)[t]? = some (Event.updateBacktracePanel (n + t) breakpoints[t]) := by
  simp [frameReports, List.getElem?_enumFrom, List.getElem?_eq_getElem ht]

/-- The record loop on a message whose records, at the offsets `i`, `i + s`,
`i + 2 s`, .. with `s` the pointer size plus 4, all resolve: it returns, with
one report per record under consecutive frame indices. -/
theorem backtraceLoop_records (env : Env) (message : Bytes) (breakpoints : List Breakpoint)
    (i : Nat) (c : Conn)
    (hlo : ∀ t, t < breakpoints.length →
      i + t * (c._debuggerObj.cPointerSize + 4) < message.length)
    (hhi : message.length ≤ i + breakpoints.length * (c._debuggerObj.cPointerSize + 4))
    (hres : ∀ t (ht : t < breakpoints.length),
      env.getBreakpoint (env.decodeMessage c._debuggerObj.cPointerSize
        c._debuggerObj.littleEndian "CI" message
        (i + t * (c._debuggerObj.cPointerSize + 4))) = some breakpoints[t]) :
    backtraceLoop env message i c =
      .returned { c.setBacktraceFrame (c._debuggerObj.backtraceFrame + breakpoints.length) with
        trace := c.trace ++ frameReports c._debuggerObj.backtraceFrame breakpoints } := by
  induction breakpoints generalizing i c with
  | nil =>
    have hnot : ¬ i < message.length := by simpa using hhi
    rw [backtraceLoop, if_neg hnot]
    simp [Conn.setBacktraceFrame, frameReports]
  | cons b rest ih =>
    have hlt : i < message.length := by simpa using hlo 0 (by simp)
    have h0 := hres 0 (by simp)
    simp only [Nat.zero_mul, Nat.add_zero, List.getElem_cons_zero] at h0
    rw [backtraceLoop, if_pos hlt]
    simp only [h0]
    rw [ih]
    · simp [Conn.setBacktraceFrame, Conn.emit, frameReports_cons, Nat.add_assoc, Nat.add_comm 1]
    · intro t ht
      have := hlo (t + 1) (by simpa using ht)
      simp only [Conn.setBacktraceFrame, Conn.emit]
      rw [Nat.add_mul, Nat.one_mul] at this
      omega
    · simp only [Conn.setBacktraceFrame, Conn.emit]
      simp only [List.length_cons, Nat.add_mul, Nat.one_mul] at hhi
      omega
    · intro t ht
      have := hres (t + 1) (by simpa using ht)
      simp only [Conn.setBacktraceFrame, Conn.emit]
      simp only [List.getElem_cons_succ, Nat.add_mul, Nat.one_mul] at this
      rw [← this, Nat.add_assoc, Nat.add_comm (c._debuggerObj.cPointerSize + 4)]

theorem onmessage_backtrace (env : Env) (c : Conn) (message : Bytes)
    (breakpoints : List Breakpoint)
    (hnodup : env.P.serverOpcodes.Nodup)
    (hready : c._debuggerObj.cPointerSize ≠ 0) (hp : c._parseObj = none)
    (hop : message[0]? = some env.P.JERRY_DEBUGGER_BACKTRACE ∨
      message[0]? = some env.P.JERRY_DEBUGGER_BACKTRACE_END)
    (hlo : ∀ t, t < breakpoints.length →
      1 + t * (c._debuggerObj.cPointerSize + 4) < message.length)
    (hhi : message.length ≤ 1 + breakpoints.length * (c._debuggerObj.cPointerSize + 4))
    (hres : ∀ t (ht : t < breakpoints.length),
      env.getBreakpoint (env.decodeMessage c._debuggerObj.cPointerSize
        c._debuggerObj.littleEndian "CI" message
        (1 + t * (c._debuggerObj.cPointerSize + 4))) = some breakpoints[t]) :
    onmessage env c message =
      .returned { c.setBacktraceFrame
          (if message[0]? = some env.P.JERRY_DEBUGGER_BACKTRACE_END then 0
            else c._debuggerObj.backtraceFrame + breakpoints.length) with
        trace := c.trace ++ Event.dom "clearElement #backtrace-table-body" ::
          frameReports c._debuggerObj.backtraceFrame breakpoints } := by
  have hne : message ≠ [] := by
    rcases hop with h | h <;> exact ne_nil_of_head _ _ h
  have harm : switchArm env.P message[0]? = .backtrace := by
    rcases hop with h | h <;> rw [h]
    · exact (switchArm_backtrace env.P hnodup).1
    · exact (switchArm_backtrace env.P hnodup).2
  rw [onmessage_dispatch env c message hne hready hp]
  unfold dispatch
  rw [harm]
  simp only [onBacktrace]
  rw [backtraceLoop_records env message breakpoints 1
    (c.emit (.dom "clearElement #backtrace-table-body")) hlo hhi hres]
  simp only [Outcome.andThen]
  split_ifs <;> simp [Conn.setBacktraceFrame, Conn.emit]

/-- C6: in a ready state with no stored sub-parser and frame index `n`, a
BACKTRACE message in which the loop finds `k` records (at the offsets
`1 + t (p + 4)` for `t < k`, `p` the pointer size) that all resolve, followed
by a BACKTRACE_END message with `j` such records, reports the `k + j` frames
to the backtrace renderer under the consecutive indices `n`, .., `n + k + j - 1`
in record order; the index is `n + k` after the first message (no reset) and
0 after the second. -/
theorem backtrace_indexing (env : Env) (c : Conn) (first second : Bytes)
    (records1 records2 : List Breakpoint)
    (hnodup : env.P.serverOpcodes.Nodup)
    (hready : c._debuggerObj.cPointerSize ≠ 0) (hp : c._parseObj = none)
    (hop1 : first[0]? = some env.P.JERRY_DEBUGGER_BACKTRACE)
    (hop2 : second[0]? = some env.P.JERRY_DEBUGGER_BACKTRACE_END)
    (hlo1 : ∀ t, t < records1.length →
      1 + t * (c._debuggerObj.cPointerSize + 4) < first.length)
    (hhi1 : first.length ≤ 1 + records1.length * (c._debuggerObj.cPointerSize + 4))
    (hres1 : ∀ t (ht : t < records1.length),
      env.getBreakpoint (env.decodeMessage c._debuggerObj.cPointerSize
        c._debuggerObj.littleEndian "CI" first
        (1 + t * (c._debuggerObj.cPointerSize + 4))) = some records1[t])
    (hlo2 : ∀ t, t < records2.length →
      1 + t * (c._debuggerObj.cPointerSize + 4) < second.length)
    (hhi2 : second.length ≤ 1 + records2.length * (c._debuggerObj.cPointerSize + 4))
    (hres2 : ∀ t (ht : t < records2.length),
      env.getBreakpoint (env.decodeMessage c._debuggerObj.cPointerSize
        c._debuggerObj.littleEndian "CI" second
        (1 + t * (c._debuggerObj.cPointerSize + 4))) = some records2[t]) :
    (∀ c1 : Conn,
      c1 = { c.setBacktraceFrame (c._debuggerObj.backtraceFrame + records1.length) with
        trace := c.trace ++ Event.dom "clearElement #backtrace-table-body" ::
          frameReports c._debuggerObj.backtraceFrame records1 } →
      onmessage env c first = .returned c1 ∧
      onmessage env c1 second =
        .returned { c1.setBacktraceFrame 0 with
          trace := c1.trace ++ Event.dom "clearElement #backtrace-table-body" ::
            frameReports (c._debuggerObj.backtraceFrame + records1.length) records2 }) ∧
    (∀ (n : Nat) (records : List Breakpoint) (t : Nat) (ht : t < records.length),
      (frameReports n records)[t]? =
        some (Event.updateBacktracePanel (n + t) records[t])) := by
  refine ⟨?_, frameReports_getElem?⟩
  intro c1 hc1
  have hnot : first[0]? ≠ some env.P.JERRY_DEBUGGER_BACKTRACE_END := by
    rw [hop1]
    intro e
    exact label_ne env.P hnodup 16 17 (by simp [Protocol.serverOpcodes])
      (by simp [Protocol.serverOpcodes]) (by decide) (Option.some.inj e)
  constructor
  · rw [onmessage_backtrace env c first records1 hnodup hready hp (Or.inl hop1) hlo1 hhi1 hres1,
      if_neg hnot, hc1]
  · have h := onmessage_backtrace env c1 second records2 hnodup (by rw [hc1]; exact hready)
      (by rw [hc1]; exact hp) (Or.inr hop2) (by rw [hc1]; exact hlo2) (by rw [hc1]; exact hhi2)
      (by rw [hc1]; exact hres2)
    rw [h, if_pos hop2]
    subst hc1
    rfl

theorem backtrace_indexing_witness :
    onmessage sampleEnv readyConn [20, 1, 0, 0, 0, 0, 0, 0, 0, 2, 0, 0, 0, 0, 0, 0, 0] =
      .returned { readyConn.setBacktraceFrame
          (readyConn._debuggerObj.backtraceFrame + [sampleBreakpoint 1, sampleBreakpoint 2].length) with
        trace := readyConn.trace ++ Event.dom "clearElement #backtrace-table-body" ::
          frameReports readyConn._debuggerObj.backtraceFrame
            [sampleBreakpoint 1, sampleBreakpoint 2] } :=
  ((backtrace_indexing sampleEnv readyConn
    [20, 1, 0, 0, 0, 0, 0, 0, 0, 2, 0, 0, 0, 0, 0, 0, 0] [21, 3, 0, 0, 0, 0, 0, 0, 0]
    [sampleBreakpoint 1, sampleBreakpoint 2] [sampleBreakpoint 3] sampleProtocol_nodup
    (by decide) rfl rfl rfl (by decide) (by decide) (by decide) (by decide) (by decide)
    (by decide)).1 _ rfl).1

theorem onmessage_evalResult (env : Env) (c : Conn) (message : Bytes)
    (hnodup : env.P.serverOpcodes.Nodup)
    (hready : c._debuggerObj.cPointerSize ≠ 0) (hp : c._parseObj = none)
    (hop : message[0]? = some env.P.JERRY_DEBUGGER_EVAL_RESULT ∨
      message[0]? = some env.P.JERRY_DEBUGGER_EVAL_RESULT_END) :
    onmessage env c message = onEvalResult env c message := by
  have hne : message ≠ [] := by
    rcases hop with h | h <;> exact ne_nil_of_head _ _ h
  have harm : switchArm env.P message[0]? = .evalResult := by
    rcases hop with h | h <;> rw [h]
    · exact (switchArm_evalResult env.P hnodup).1
    · exact (switchArm_evalResult env.P hnodup).2
  rw [onmessage_dispatch env c message hne hready hp]
  unfold dispatch
  rw [harm]

/-- C2 (the code departs from the claim): for the chunks "he", "llo" sent as
EVAL_RESULT messages and the terminal chunk "!" with the OK byte sent as an
EVAL_RESULT_END message, the concatenation of the chunks without the last
byte of the terminal chunk decodes to "hello!", but the handler cuts the last
byte off the buffer at every fragment (the buffer is "h" after the first
message and "hll" after the second) and logs "hll!". -/
theorem eval_fragments_lose_last_byte :
    sampleEnv.cesu8ToString
      (((([[22, 104, 101], [22, 108, 108, 111], [23, 33, 1]] : List Bytes).foldl
        sampleEnv.concatUint8Arrays none).getD []).dropLast) = "hello!" ∧
    (onmessages sampleEnv readyConn [[22, 104, 101]]).conn._evalResult = some [104] ∧
    (onmessages sampleEnv readyConn [[22, 104, 101], [22, 108, 108, 111]]).conn._evalResult =
      some [104, 108, 108] ∧
    onmessages sampleEnv readyConn [[22, 104, 101], [22, 108, 108, 111], [23, 33, 1]] =
      .returned { readyConn with trace := readyConn.trace ++ [Event.loggerInfo "hll!"] } := by
  decide

/-- C10 (the code departs from the claim): an EVAL_RESULT_END message whose
trailing subtype byte is neither EVAL_OK nor EVAL_ERROR (here 7) leaves the
eval buffer holding the payload without that byte instead of `null`. -/
theorem eval_end_keeps_buffer_on_other_subtype :
    onmessage sampleEnv readyConn [23, 97, 7] =
      .returned { readyConn with _evalResult := some [97] } ∧
    (onmessages sampleEnv readyConn [[23, 97, 7], [23, 98, 1]]).conn.trace =
      readyConn.trace ++ [Event.loggerInfo "ab"] := by
  decide

/-- C11 (the code departs from the claim): a non-terminal EVAL_RESULT message
is not only appended. The message "a" with last byte EVAL_OK is surfaced at
once through `logger.info` and the buffer is cleared; with the watch panel
active and a watch in progress the same message clears the
watch-in-progress flag and resolves the watch expression; and the message
"he" leaves the buffer shortened to "h". -/
theorem eval_fragment_completes_by_last_byte :
    onmessage sampleEnv readyConn [22, 97, 1] =
      .returned { readyConn with trace := readyConn.trace ++ [Event.loggerInfo "a"] } ∧
    onmessage { sampleEnv with getPanelProperty := fun _ => true }
        { readyConn with _session := { readyConn._session with watchInProgress := true } }
        [22, 97, 1] =
      .returned { readyConn with
        trace := readyConn.trace ++ [Event.addWatchExpressionValue "" "a"] } ∧
    sampleEnv.concatUint8Arrays readyConn._evalResult [22, 104, 101] = some [104, 101] ∧
    onmessage sampleEnv readyConn [22, 104, 101] =
      .returned { readyConn with _evalResult := some [104] } := by
  decide

/-- C14 (the code departs from the claim): the call
`this._socket.abortConnection(reason)` made for a protocol violation does not
have the effect of `abort(reason)` on the connection. For an empty message
received with a stored sub-parser the handler throws an assertion error or a
TypeError, not an error carrying the reason; the transport reference and the
sub-parser of the connection stay as they were and no "Connection aborted"
error is logged, whereas `abort` run on the connection clears both, logs the
reason and throws an error carrying it. -/
theorem abort_call_lacks_abort_effect :
    onmessage sampleEnv { readyConn with _parseObj := some { received := [] } } [] =
      .thrown .assertionFailed
        { readyConn with
          _parseObj := some { received := [] }
          trace := readyConn.trace ++ [Event.abortConnection "message too short."] } ∧
    onmessage { sampleEnv with assertThrows := false }
        { readyConn with _parseObj := some { received := [] } } [] =
      .thrown .typeError
        { readyConn with
          _parseObj := some { received := [] }
          trace := readyConn.trace ++
            [Event.abortConnection "message too short.", Event.socketClose] } ∧
    Connection.abort sampleEnv { readyConn with _parseObj := some { received := [] } }
        "message too short." =
      .thrown (.error "message too short.")
        { readyConn with
          _socket := none
          _parseObj := none
          trace := readyConn.trace ++
            [Event.socketClose,
             Event.loggerError "Connection aborted: message too short." true] } ∧
    onmessage sampleEnv readyConn [200] =
      .thrown .assertionFailed
        { readyConn with
          trace := readyConn.trace ++ [Event.abortConnection "unexpected message."] } := by
  decide

/-- C12 (the claim as stated fails): on a connection with an open transport
the second of two successive calls of `close()` throws a TypeError, because
the first call set `this._socket` to `null`. -/
theorem close_twice_throws :
    Connection.close readyConn =
      .returned { readyConn with
        _socket := none
        trace := readyConn.trace ++ [Event.socketClose] } ∧
    Connection.close (Connection.close readyConn).conn =
      .thrown .typeError (Connection.close readyConn).conn := by
  decide

/-- C12 (amended): on every connection with an open transport `close()`
returns with the transport closed once, the transport reference cleared and
the sub-parser released; a second `close()` in succession throws a TypeError
and changes nothing, so the state after the two calls is the state after one. -/
theorem close_then_close (c : Conn) (socket : WebSocket) (hs : c._socket = some socket) :
    Connection.close c =
      .returned { c with _socket := none, _parseObj := none, trace := c.trace ++ [.socketClose] } ∧
    Connection.close (Connection.close c).conn = .thrown .typeError (Connection.close c).conn ∧
    (Connection.close (Connection.close c).conn).conn = (Connection.close c).conn := by
  have h1 : Connection.close c =
      .returned { c with _socket := none, _parseObj := none, trace := c.trace ++ [.socketClose] } := by
    simp [Connection.close, hs, Conn.emit]
  refine ⟨h1, ?_, ?_⟩ <;> rw [h1] <;> simp [Connection.close, Outcome.conn]

theorem close_then_close_witness :
    Connection.close (Connection.close readyConn).conn =
      .thrown .typeError (Connection.close readyConn).conn :=
  (close_then_close readyConn { url := "ws://localhost:5001/jerry-debugger" } rfl).2.1

/-- C13 (the claim as stated fails): with bytes in the three reassembly
buffers and a stored sub-parser, the buffers are still filled after `close()`
has returned, and after `onclose_and_error` has run the buffers are still
filled as well. -/
theorem teardown_keeps_buffers :
    (Connection.close { readyConn with
        _exceptionData := some [1], _evalResult := some [2], _outputResult := some [3] }).conn =
      { readyConn with
        _socket := none
        _exceptionData := some [1], _evalResult := some [2], _outputResult := some [3]
        trace := readyConn.trace ++ [Event.socketClose] } ∧
    (onclose_and_error sampleEnv { readyConn with
        _exceptionData := some [1], _evalResult := some [2],
        _outputResult := some [3] }).conn._exceptionData = some [1] ∧
    (onclose_and_error sampleEnv { readyConn with
        _exceptionData := some [1], _evalResult := some [2],
        _outputResult := some [3] }).conn._evalResult = some [2] ∧
    (onclose_and_error sampleEnv { readyConn with
        _exceptionData := some [1], _evalResult := some [2],
        _outputResult := some [3] }).conn._outputResult = some [3] := by
  decide

theorem onclose_and_error_frame (env : Env) (c : Conn) :
    (onclose_and_error env c).isReturned = true ∧
    (onclose_and_error env c).conn._socket = none ∧
    (onclose_and_error env c).conn._debuggerObj =
      { c._debuggerObj with engineMode := .DISCONNECTED } ∧
    (onclose_and_error env c).conn._parseObj = c._parseObj ∧
    (onclose_and_error env c).conn._exceptionData = c._exceptionData ∧
    (onclose_and_error env c).conn._evalResult = c._evalResult ∧
    (onclose_and_error env c).conn._outputResult = c._outputResult := by
  unfold onclose_and_error
  lift_lets
  extract_lets c1 c2 d c3 c4 c5 s5 c6 c7
  have h1 : c1._socket = none ∧ c1._debuggerObj = c._debuggerObj ∧
      c1._parseObj = c._parseObj ∧ c1._exceptionData = c._exceptionData ∧
      c1._evalResult = c._evalResult ∧ c1._outputResult = c._outputResult := by
    simp only [c1]
    cases h : c._socket <;> simp [Conn.emit, h]
  have h2 : c2._socket = none ∧
      c2._debuggerObj = { c._debuggerObj with engineMode := .DISCONNECTED } ∧
      c2._parseObj = c._parseObj ∧ c2._exceptionData = c._exceptionData ∧
      c2._evalResult = c._evalResult ∧ c2._outputResult = c._outputResult := by
    simp only [c2, Conn.setEngineMode]
    obtain ⟨a1, a2, a3, a4, a5, a6⟩ := h1
    exact ⟨a1, by rw [a2], a3, a4, a5, a6⟩
  have h3 : c3._socket = c2._socket ∧ c3._debuggerObj = c2._debuggerObj ∧
      c3._parseObj = c2._parseObj ∧ c3._exceptionData = c2._exceptionData ∧
      c3._evalResult = c2._evalResult ∧ c3._outputResult = c2._outputResult := by
    simp only [c3, d]
    split_ifs <;> simp [Conn.emit]
  have h4 : c4._socket = c3._socket ∧ c4._debuggerObj = c3._debuggerObj ∧
      c4._parseObj = c3._parseObj ∧ c4._exceptionData = c3._exceptionData ∧
      c4._evalResult = c3._evalResult ∧ c4._outputResult = c3._outputResult := by
    simp only [c4]
    split_ifs <;> simp [Conn.emit]
  have h5 : c5._socket = c4._socket ∧ c5._debuggerObj = c4._debuggerObj ∧
      c5._parseObj = c4._parseObj ∧ c5._exceptionData = c4._exceptionData ∧
      c5._evalResult = c4._evalResult ∧ c5._outputResult = c4._outputResult := by
    simp only [c5]
    split_ifs <;> simp
  have h6 : c6._socket = c5._socket ∧ c6._debuggerObj = c5._debuggerObj ∧
      c6._parseObj = c5._parseObj ∧ c6._exceptionData = c5._exceptionData ∧
      c6._evalResult = c5._evalResult ∧ c6._outputResult = c5._outputResult := by
    simp only [c6, s5]
    split_ifs <;> simp
  have h7 : c7._socket = c6._socket ∧ c7._debuggerObj = c6._debuggerObj ∧
      c7._parseObj = c6._parseObj ∧ c7._exceptionData = c6._exceptionData ∧
      c7._evalResult = c6._evalResult ∧ c7._outputResult = c6._outputResult := by
    simp [c7, Conn.emit]
  have h : c7._socket = none ∧
      c7._debuggerObj = { c._debuggerObj with engineMode := .DISCONNECTED } ∧
      c7._parseObj = c._parseObj ∧ c7._exceptionData = c._exceptionData ∧
      c7._evalResult = c._evalResult ∧ c7._outputResult = c._outputResult :=
    ⟨h7.1.trans (h6.1.trans (h5.1.trans (h4.1.trans (h3.1.trans h2.1)))),
     h7.2.1.trans (h6.2.1.trans (h5.2.1.trans (h4.2.1.trans (h3.2.1.trans h2.2.1)))),
     h7.2.2.1.trans (h6.2.2.1.trans (h5.2.2.1.trans (h4.2.2.1.trans (h3.2.2.1.trans h2.2.2.1)))),
     h7.2.2.2.1.trans (h6.2.2.2.1.trans (h5.2.2.2.1.trans (h4.2.2.2.1.trans
       (h3.2.2.2.1.trans h2.2.2.2.1)))),
     h7.2.2.2.2.1.trans (h6.2.2.2.2.1.trans (h5.2.2.2.2.1.trans (h4.2.2.2.2.1.trans
       (h3.2.2.2.2.1.trans h2.2.2.2.2.1)))),
     h7.2.2.2.2.2.trans (h6.2.2.2.2.2.trans (h5.2.2.2.2.2.trans (h4.2.2.2.2.2.trans
       (h3.2.2.2.2.2.trans h2.2.2.2.2.2))))⟩
  obtain ⟨a1, a2, a3, a4, a5, a6⟩ := h
  intro s7
  split_ifs <;> simp [Outcome.isReturned, Outcome.conn, Conn.emit, a1, a2, a3, a4, a5, a6]

/-- C13 (amended): `close()` on an open transport returns with the transport
reference cleared and the stored sub-parser released, and it leaves the three
reassembly buffers as they were; `onclose_and_error` returns with the
transport reference cleared and leaves the three buffers as they were. A
connection has no sub-parser and empty buffers when the constructor has made
it. -/
theorem teardown_effect (env : Env) (c : Conn) :
    ((∃ socket, c._socket = some socket) →
      (Connection.close c).isReturned = true ∧
      (Connection.close c).conn._socket = none ∧
      (Connection.close c).conn._parseObj = none) ∧
    (Connection.close c).conn._exceptionData = c._exceptionData ∧
    (Connection.close c).conn._evalResult = c._evalResult ∧
    (Connection.close c).conn._outputResult = c._outputResult ∧
    (onclose_and_error env c).isReturned = true ∧
    (onclose_and_error env c).conn._socket = none ∧
    (onclose_and_error env c).conn._exceptionData = c._exceptionData ∧
    (onclose_and_error env c).conn._evalResult = c._evalResult ∧
    (onclose_and_error env c).conn._outputResult = c._outputResult ∧
    (∀ (d : DebuggerObj) (address : String) (session : Session) (chart : Chart) (e : Bool),
      (Connection.new d address session chart e)._parseObj = none ∧
      (Connection.new d address session chart e)._exceptionData = none ∧
      (Connection.new d address session chart e)._evalResult = none ∧
      (Connection.new d address session chart e)._outputResult = none) := by
  have h := onclose_and_error_frame env c
  refine ⟨?_, ?_, ?_, ?_, h.1, h.2.1, h.2.2.2.2.1, h.2.2.2.2.2.1, h.2.2.2.2.2.2, ?_⟩
  · rintro ⟨socket, hs⟩
    simp [Connection.close, hs, Outcome.isReturned, Outcome.conn, Conn.emit]
  · cases hs : c._socket <;> simp [Connection.close, hs, Outcome.conn, Conn.emit]
  · cases hs : c._socket <;> simp [Connection.close, hs, Outcome.conn, Conn.emit]
  · cases hs : c._socket <;> simp [Connection.close, hs, Outcome.conn, Conn.emit]
  · intro d address session chart e
    exact ⟨rfl, rfl, rfl, rfl⟩

theorem teardown_effect_witness :
    (Connection.close readyConn).isReturned = true ∧
    (Connection.close readyConn).conn._socket = none ∧
    (Connection.close readyConn).conn._parseObj = none :=
  (teardown_effect sampleEnv readyConn).1 ⟨_, rfl⟩

/-- The handshake on an accepted configuration message: the four fields are
stored and nothing else changes. -/
theorem onmessage_accepted (env : Env) (c : Conn) (b1 b2 b3 b4 : Nat)
    (h0 : c._debuggerObj.cPointerSize = 0) (hp : b2 = 2 ∨ b2 = 4)
    (hv : b4 = env.P.JERRY_DEBUGGER_VERSION) :
    onmessage env c [env.P.JERRY_DEBUGGER_CONFIGURATION, b1, b2, b3, b4] =
      .returned { c with _debuggerObj := { c._debuggerObj with
        maxMessageSize := b1, cPointerSize := b2, littleEndian := decide (b3 ≠ 0),
        protocolVersion := b4 } } := by
  rw [onmessage_configure env c _ (by simp) h0]
  unfold configure
  have hnot : ¬ (b2 ≠ 2 ∧ b2 ≠ 4) := by
    rcases hp with h | h <;> simp [h]
  simp [hnot, hv]

/-- C17: while the connection awaits configuration, an accepted configuration
message `[opcode, b1, b2, b3, b4]` (CONFIGURATION opcode, `b2` equal to 2 or
4, `b4` the supported version) makes the handler return with maximum message
size `b1`, pointer size `b2` (so non-zero), little-endian flag true exactly
when `b3` is non-zero and protocol version `b4`; every other part of the
state, the sub-parser and the trace included, is as before, so no sub-parser
is created and nothing is dispatched. -/
theorem handshake_field_extraction (env : Env) (c : Conn) (b1 b2 b3 b4 : Nat)
    (h0 : c._debuggerObj.cPointerSize = 0) (hp : b2 = 2 ∨ b2 = 4)
    (hv : b4 = env.P.JERRY_DEBUGGER_VERSION) :
    onmessage env c [env.P.JERRY_DEBUGGER_CONFIGURATION, b1, b2, b3, b4] =
      .returned { c with _debuggerObj := { c._debuggerObj with
        maxMessageSize := b1, cPointerSize := b2, littleEndian := decide (b3 ≠ 0),
        protocolVersion := b4 } } ∧
    (onmessage env c [env.P.JERRY_DEBUGGER_CONFIGURATION, b1, b2, b3,
      b4]).conn._debuggerObj.cPointerSize ≠ 0 ∧
    ((onmessage env c [env.P.JERRY_DEBUGGER_CONFIGURATION, b1, b2, b3,
      b4]).conn._debuggerObj.littleEndian = true ↔ b3 ≠ 0) ∧
    (onmessage env c [env.P.JERRY_DEBUGGER_CONFIGURATION, b1, b2, b3,
      b4]).conn._parseObj = c._parseObj ∧
    (onmessage env c [env.P.JERRY_DEBUGGER_CONFIGURATION, b1, b2, b3,
      b4]).conn.trace = c.trace := by
  have h := onmessage_accepted env c b1 b2 b3 b4 h0 hp hv
  refine ⟨h, ?_, ?_, ?_, ?_⟩ <;> rw [h] <;> simp [Outcome.conn]
  rcases hp with e | e <;> simp [e]

theorem handshake_field_extraction_witness :
    onmessage sampleEnv freshConn [sampleEnv.P.JERRY_DEBUGGER_CONFIGURATION, 64, 4, 1, 3] =
      .returned { freshConn with _debuggerObj := { freshConn._debuggerObj with
        maxMessageSize := 64, cPointerSize := 4, littleEndian := decide (1 ≠ 0),
        protocolVersion := 3 } } :=
  (handshake_field_extraction sampleEnv freshConn 64 4 1 3 rfl (Or.inr rfl) rfl).1

/-- C18: with an open transport, `send(message)` returns after handing the
message unchanged to the transport exactly once; the engine mode is RUN
afterwards when the first byte is the CONTINUE, STEP or NEXT opcode and is as
before for every other message; the sub-parser, the three reassembly buffers
and every other part of the state are as before. -/
theorem send_effect (env : Env) (c : Conn) (message : Bytes) (socket : WebSocket)
    (hs : c._socket = some socket) :
    Connection.send env c message =
      .returned { c with
        trace := c.trace ++ [.socketSend message]
        _debuggerObj := { c._debuggerObj with engineMode :=
          (if message[0]? = some env.P.JERRY_DEBUGGER_CONTINUE ∨
              message[0]? = some env.P.JERRY_DEBUGGER_STEP ∨
              message[0]? = some env.P.JERRY_DEBUGGER_NEXT then .RUN
            else c._debuggerObj.engineMode) } } ∧
    (Connection.send env c message).conn._parseObj = c._parseObj ∧
    (Connection.send env c message).conn._exceptionData = c._exceptionData ∧
    (Connection.send env c message).conn._evalResult = c._evalResult ∧
    (Connection.send env c message).conn._outputResult = c._outputResult := by
  unfold Connection.send
  simp only [hs, Conn.emit, Conn.setEngineMode]
  split_ifs <;> simp [Outcome.conn]

theorem send_effect_witness :
    (Connection.send sampleEnv
      { readyConn with _debuggerObj := { readyConn._debuggerObj with engineMode := .BREAKPOINT } }
      [11]).conn._debuggerObj.engineMode = .RUN ∧
    (Connection.send sampleEnv
      { readyConn with _debuggerObj := { readyConn._debuggerObj with engineMode := .BREAKPOINT } }
      [5]).conn._debuggerObj.engineMode = .BREAKPOINT := by
  constructor
  · rw [(send_effect sampleEnv _ [11] _ rfl).1]
    decide
  · rw [(send_effect sampleEnv _ [5] _ rfl).1]
    decide

theorem onopen_frame (env : Env) (c : Conn) :
    (onopen env c).isReturned = true ∧
    (onopen env c).conn._debuggerObj = { c._debuggerObj with engineMode := .RUN } ∧
    (onopen env c).conn._socket = c._socket := by
  unfold onopen
  simp only [Conn.emit, Conn.setEngineMode]
  split_ifs <;> simp [Outcome.isReturned, Outcome.conn]

/-- C16 (the claim as stated fails): the handshake does not set the engine
mode. On a connection that awaits configuration with engine mode
DISCONNECTED, the accepted configuration message `[1, 64, 4, 1, 3]` makes the
connection ready and the engine mode is still DISCONNECTED, not RUN. -/
theorem handshake_keeps_engine_mode :
    freshConn._debuggerObj.engineMode = .DISCONNECTED ∧
    onmessage sampleEnv freshConn [1, 64, 4, 1, 3] =
      .returned { freshConn with _debuggerObj := { freshDebugger with
        maxMessageSize := 64, cPointerSize := 4, littleEndian := true,
        protocolVersion := 3 } } ∧
    (onmessage sampleEnv freshConn [1, 64, 4, 1, 3]).conn._debuggerObj.engineMode =
      .DISCONNECTED := by
  decide

/-- C16 (amended): an accepted configuration message handled while awaiting
configuration makes the handler return with the connection ready (pointer
size 2 or 4) and the engine mode as it was before the message; the engine
mode RUN comes from `onopen`, so when the message is handled in the state
that `onopen` left, the connection is ready and the engine mode is RUN. -/
theorem handshake_after_onopen (env : Env) (c : Conn) (b1 b2 b3 b4 : Nat)
    (h0 : c._debuggerObj.cPointerSize = 0) (hp : b2 = 2 ∨ b2 = 4)
    (hv : b4 = env.P.JERRY_DEBUGGER_VERSION) :
    (onmessage env c [env.P.JERRY_DEBUGGER_CONFIGURATION, b1, b2, b3, b4]).isReturned = true ∧
    (onmessage env c [env.P.JERRY_DEBUGGER_CONFIGURATION, b1, b2, b3,
      b4]).conn._debuggerObj.cPointerSize ≠ 0 ∧
    (onmessage env c [env.P.JERRY_DEBUGGER_CONFIGURATION, b1, b2, b3,
      b4]).conn._debuggerObj.engineMode = c._debuggerObj.engineMode ∧
    (onopen env c).isReturned = true ∧
    (onmessage env (onopen env c).conn
      [env.P.JERRY_DEBUGGER_CONFIGURATION, b1, b2, b3, b4]).isReturned = true ∧
    (onmessage env (onopen env c).conn [env.P.JERRY_DEBUGGER_CONFIGURATION, b1, b2, b3,
      b4]).conn._debuggerObj.cPointerSize ≠ 0 ∧
    (onmessage env (onopen env c).conn [env.P.JERRY_DEBUGGER_CONFIGURATION, b1, b2, b3,
      b4]).conn._debuggerObj.engineMode = .RUN := by
  have hb : b2 ≠ 0 := by rcases hp with e | e <;> simp [e]
  have ho := onopen_frame env c
  have h0' : (onopen env c).conn._debuggerObj.cPointerSize = 0 := by rw [ho.2.1]; exact h0
  have h1 := onmessage_accepted env c b1 b2 b3 b4 h0 hp hv
  have h2 := onmessage_accepted env (onopen env c).conn b1 b2 b3 b4 h0' hp hv
  refine ⟨?_, ?_, ?_, ho.1, ?_, ?_, ?_⟩
  · rw [h1]; rfl
  · rw [h1]; exact hb
  · rw [h1]; rfl
  · rw [h2]; rfl
  · rw [h2]; exact hb
  · rw [h2]
    show (onopen env c).conn._debuggerObj.engineMode = .RUN
    rw [ho.2.1]

theorem handshake_after_onopen_witness :
    (onmessage sampleEnv (onopen sampleEnv freshConn).conn
      [sampleEnv.P.JERRY_DEBUGGER_CONFIGURATION, 64, 4, 1, 3]).conn._debuggerObj.engineMode =
      .RUN :=
  (handshake_after_onopen sampleEnv freshConn 64 4 1 3 rfl (Or.inr rfl) rfl).2.2.2.2.2.2

/-- C15 (the claim as stated fails): the state reached from construction by
`onopen` and then `close()` holds no transport (the reference is `null`)
while the engine mode is RUN, so the engine mode is not DISCONNECTED exactly
when the transport reference is `null`. -/
theorem engine_mode_after_close :
    (run sampleEnv freshConn [.onopen, .close])._socket = none ∧
    (run sampleEnv freshConn [.onopen, .close])._debuggerObj.engineMode = .RUN ∧
    ¬ ((run sampleEnv freshConn [.onopen, .close])._debuggerObj.engineMode = .DISCONNECTED ↔
      (run sampleEnv freshConn [.onopen, .close])._socket = none) := by
  decide

/-- C15 (amended): in every state that `onclose_and_error` leaves the engine
mode is DISCONNECTED and the transport reference is `null`; `onopen` sets the
engine mode to RUN and keeps the transport reference; `close()` on an open
transport clears the transport reference and leaves the engine mode as it
was, so the mode becomes DISCONNECTED only when the transport-close handler
runs. -/
theorem engine_mode_by_event (env : Env) (c : Conn) :
    (onclose_and_error env c).conn._debuggerObj.engineMode = .DISCONNECTED ∧
    (onclose_and_error env c).conn._socket = none ∧
    (onopen env c).conn._debuggerObj.engineMode = .RUN ∧
    (onopen env c).conn._socket = c._socket ∧
    (Connection.close c).conn._debuggerObj = c._debuggerObj ∧
    ((∃ socket, c._socket = some socket) → (Connection.close c).conn._socket = none) ∧
    (∀ ops : List Op,
      (run env c (ops ++ [.onclose_and_error]))._debuggerObj.engineMode = .DISCONNECTED ∧
      (run env c (ops ++ [.onclose_and_error]))._socket = none) := by
  have hc := onclose_and_error_frame env c
  have ho := onopen_frame env c
  refine ⟨by rw [hc.2.2.1], hc.2.1, by rw [ho.2.1], ho.2.2, ?_, ?_, ?_⟩
  · cases hs : c._socket <;> simp [Connection.close, hs, Outcome.conn, Conn.emit]
  · rintro ⟨socket, hs⟩
    simp [Connection.close, hs, Outcome.conn, Conn.emit]
  · intro ops
    induction ops generalizing c with
    | nil =>
      have h := onclose_and_error_frame env c
      simp only [List.nil_append, run, step]
      exact ⟨by rw [h.2.2.1], h.2.1⟩
    | cons op rest ih =>
      simp only [List.cons_append, run]
      exact ih (step env c op).conn (onclose_and_error_frame env _) (onopen_frame env _)

theorem engine_mode_by_event_witness :
    (Connection.close readyConn).conn._socket = none :=
  (engine_mode_by_event sampleEnv readyConn).2.2.2.2.2.1 ⟨_, rfl⟩

/-- C19 (the claim as stated fails): with pointer size 2 a BACKTRACE message
of byte length `1 + 6 * (1 + 2 + 4)`, which holds six records of `1 + 2 + 4`
bytes, is decoded at the offsets 1, 7, 13, .. (stride `2 + 4`) and produces
seven frame reports and seven increments of the frame index, not six. -/
theorem backtrace_stride_counts_seven :
    (20 :: List.replicate 42 0 : Bytes).length = 1 + 6 * (1 + 2 + 4) ∧
    onmessage sampleEnv
        { readyConn with _debuggerObj := { readyConn._debuggerObj with cPointerSize := 2 } }
        (20 :: List.replicate 42 0) =
      .returned { readyConn with
        _debuggerObj := { readyConn._debuggerObj with cPointerSize := 2, backtraceFrame := 7 }
        trace := readyConn.trace ++ Event.dom "clearElement #backtrace-table-body" ::
          frameReports 0 (List.replicate 7 (sampleBreakpoint 0)) } ∧
    (frameReports 0 (List.replicate 7 (sampleBreakpoint 0))).length = 7 := by
  refine ⟨by decide, ?_, by decide⟩
  rw [onmessage_backtrace sampleEnv _ (20 :: List.replicate 42 0)
    (List.replicate 7 (sampleBreakpoint 0)) sampleProtocol_nodup (by decide) rfl (Or.inl rfl)
    (by decide) (by decide) (by decide)]
  rfl

/-- C19 (amended): in a ready state with pointer size `p` equal to 2 or 4 and
no stored sub-parser, the records of a BACKTRACE or BACKTRACE_END message are
decoded at the offsets 1, 1 + s, 1 + 2 s, .. with stride `s = p + 4`; a
message of byte length `1 + k (p + 4)` whose `k` records resolve produces
exactly `k` frame reports, with `k` increments of the frame index for
BACKTRACE and the index 0 after BACKTRACE_END. -/
theorem backtrace_record_stride (env : Env) (c : Conn) (message : Bytes)
    (records : List Breakpoint)
    (hnodup : env.P.serverOpcodes.Nodup)
    (hsize : c._debuggerObj.cPointerSize = 2 ∨ c._debuggerObj.cPointerSize = 4)
    (hp : c._parseObj = none)
    (hop : message[0]? = some env.P.JERRY_DEBUGGER_BACKTRACE ∨
      message[0]? = some env.P.JERRY_DEBUGGER_BACKTRACE_END)
    (hlen : message.length = 1 + records.length * (c._debuggerObj.cPointerSize + 4))
    (hres : ∀ t (ht : t < records.length),
      env.getBreakpoint (env.decodeMessage c._debuggerObj.cPointerSize
        c._debuggerObj.littleEndian "CI" message
        (1 + t * (c._debuggerObj.cPointerSize + 4))) = some records[t]) :
    onmessage env c message =
      .returned { c.setBacktraceFrame
          (if message[0]? = some env.P.JERRY_DEBUGGER_BACKTRACE_END then 0
            else c._debuggerObj.backtraceFrame + records.length) with
        trace := c.trace ++ Event.dom "clearElement #backtrace-table-body" ::
          frameReports c._debuggerObj.backtraceFrame records } ∧
    (frameReports c._debuggerObj.backtraceFrame records).length = records.length := by
  have hready : c._debuggerObj.cPointerSize ≠ 0 := by
    rcases hsize with e | e <;> rw [e] <;> decide
  refine ⟨onmessage_backtrace env c message records hnodup hready hp hop ?_ (by rw [hlen])
    hres, by simp [frameReports]⟩
  intro t ht
  have h1 := Nat.mul_le_mul_right (c._debuggerObj.cPointerSize + 4) (Nat.succ_le_of_lt ht)
  rw [Nat.succ_mul] at h1
  omega

theorem backtrace_record_stride_witness :
    onmessage sampleEnv readyConn [21, 3, 0, 0, 0, 0, 0, 0, 0] =
      .returned { readyConn.setBacktraceFrame
          (if ([21, 3, 0, 0, 0, 0, 0, 0, 0] : Bytes)[0]? =
              some sampleEnv.P.JERRY_DEBUGGER_BACKTRACE_END then 0
            else readyConn._debuggerObj.backtraceFrame + [sampleBreakpoint 3].length) with
        trace := readyConn.trace ++ Event.dom "clearElement #backtrace-table-body" ::
          frameReports readyConn._debuggerObj.backtraceFrame [sampleBreakpoint 3] } :=
  (backtrace_record_stride sampleEnv readyConn [21, 3, 0, 0, 0, 0, 0, 0, 0]
    [sampleBreakpoint 3] sampleProtocol_nodup (Or.inr rfl) rfl (Or.inr rfl) (by decide)
    (by decide)).1

theorem firstMatch_arm (cases : List (Nat × Arm)) (opcode : Option Nat) (arm : Arm)
    (h : firstMatch cases opcode = arm) (hd : arm ≠ .default) :
    ∃ label, (label, arm) ∈ cases ∧ opcode = some label := by
  induction cases with
  | nil => exact absurd h.symm hd
  | cons a rest ih =>
    obtain ⟨label, arm1⟩ := a
    simp only [firstMatch] at h
    by_cases e : opcode = some label
    · rw [if_pos e] at h
      exact ⟨label, by rw [h]; exact List.mem_cons_self _ _, e⟩
    · rw [if_neg e] at h
      obtain ⟨l, hl, hop⟩ := ih h
      exact ⟨l, List.mem_cons_of_mem _ hl, hop⟩

theorem switchArm_hit_inv (P : Protocol) (opcode : Option Nat)
    (h : switchArm P opcode = .hit) :
    opcode = some P.JERRY_DEBUGGER_BREAKPOINT_HIT ∨
    opcode = some P.JERRY_DEBUGGER_EXCEPTION_HIT := by
  rw [switchArm_eq_firstMatch] at h
  obtain ⟨label, hl, hop⟩ := firstMatch_arm P.cases opcode .hit h (by decide)
  simp [Protocol.cases] at hl
  rcases hl with e | e <;> rw [hop, e] <;> simp

theorem switchArm_waitForSource_inv (P : Protocol) (opcode : Option Nat)
    (h : switchArm P opcode = .waitForSource) :
    opcode = some P.JERRY_DEBUGGER_WAIT_FOR_SOURCE := by
  rw [switchArm_eq_firstMatch] at h
  obtain ⟨label, hl, hop⟩ := firstMatch_arm P.cases opcode .waitForSource h (by decide)
  simp [Protocol.cases] at hl
  rw [hop, hl]

theorem switchArm_memstats (P : Protocol) (h : P.serverOpcodes.Nodup) :
    switchArm P (some P.JERRY_DEBUGGER_MEMSTATS_RECEIVE) = .memstats :=
  switchArm_label P h 11 (by simp [Protocol.cases])

theorem abortConnection_debugger (env : Env) (c : Conn) (reason : String) :
    (abortConnection env c reason).conn._debuggerObj = c._debuggerObj := by
  unfold abortConnection
  split
  · rfl
  · dsimp only
    split <;> rfl

theorem configure_mode (env : Env) (c : Conn) (message : Bytes) :
    (configure env c message).conn._debuggerObj.engineMode = c._debuggerObj.engineMode := by
  unfold configure
  simp only
  split_ifs <;> first | rfl | (rw [abortConnection_debugger])

theorem forward_debugger (env : Env) (c : Conn) (parseObj : ParseSource) (message : Bytes) :
    (forward env c parseObj message).conn._debuggerObj = c._debuggerObj := by
  unfold forward
  simp only
  split_ifs <;> rfl

theorem onParse_debugger (env : Env) (c : Conn) (message : Bytes) :
    (onParse env c message).conn._debuggerObj = c._debuggerObj := by
  unfold onParse
  simp only
  split_ifs <;> rfl

theorem onMemstats_debugger (env : Env) (c : Conn) (message : Bytes) :
    (onMemstats env c message).conn._debuggerObj = c._debuggerObj := by
  unfold onMemstats
  lift_lets
  extract_lets messagedata c1
  have h1 : c1._debuggerObj = c._debuggerObj := by
    simp only [c1]
    split_ifs <;> simp [Conn.emit]
  clear_value c1
  split
  · exact h1
  · split_ifs
    all_goals first | exact h1 | (split <;> exact h1)

theorem onEvalResult_debugger (env : Env) (c : Conn) (message : Bytes) :
    (onEvalResult env c message).conn._debuggerObj = c._debuggerObj := by
  unfold onEvalResult
  simp only
  split
  · rfl
  · split_ifs <;> rfl

theorem onOutputResult_debugger (env : Env) (c : Conn) (message : Bytes) :
    (onOutputResult env c message).conn._debuggerObj = c._debuggerObj := by
  unfold onOutputResult
  simp only
  split_ifs
  · split <;> rfl
  · rfl

theorem backtraceLoop_mode (env : Env) (message : Bytes) :
    ∀ (n i : Nat) (c : Conn), message.length - i = n →
      (backtraceLoop env message i c).conn._debuggerObj.engineMode =
        c._debuggerObj.engineMode := by
  intro n
  induction n using Nat.strong_induction_on with
  | _ n ih =>
    intro i c hn
    rw [backtraceLoop]
    by_cases hlt : i < message.length
    · rw [if_pos hlt]
      simp only
      split
      · rfl
      · rw [ih _ ?_ _ _ rfl]
        · rfl
        · simp only [Conn.setBacktraceFrame, Conn.emit]
          omega
    · rw [if_neg hlt]
      rfl

theorem onBacktrace_mode (env : Env) (c : Conn) (message : Bytes) :
    (onBacktrace env c message).conn._debuggerObj.engineMode = c._debuggerObj.engineMode := by
  unfold onBacktrace
  simp only
  have h := backtraceLoop_mode env message _ 1
    (c.emit (.dom "clearElement #backtrace-table-body")) rfl
  cases hl : backtraceLoop env message 1 (c.emit (.dom "clearElement #backtrace-table-body")) with
  | thrown e c1 =>
    rw [hl] at h
    exact h
  | returned c1 =>
    rw [hl] at h
    simp only [Outcome.andThen]
    split_ifs <;> exact h

theorem onHit_mode (env : Env) (c : Conn) (message : Bytes) :
    (onHit env c message).conn._debuggerObj.engineMode = .BREAKPOINT := by
  cases h : env.getBreakpoint (env.decodeMessage c._debuggerObj.cPointerSize
      c._debuggerObj.littleEndian "CI" message 1) with
  | none =>
    unfold onHit
    simp only [Conn.setEngineMode, h]
    rfl
  | some breakpoint =>
    rw [(onHit_debugger env c message breakpoint h).1]

theorem onWaitForSource_mode (env : Env) (c : Conn) :
    (onWaitForSource env c).conn._debuggerObj.engineMode = .CLIENT_SOURCE := by
  unfold onWaitForSource
  simp only [Conn.emit, Conn.setEngineMode]
  split_ifs <;> rfl

/-- The engine mode after the opcode dispatch, by the arm of the switch. -/
theorem dispatch_mode (env : Env) (c : Conn) (message : Bytes) :
    (dispatch env c message).conn._debuggerObj.engineMode =
      (match switchArm env.P message[0]? with
       | .hit => .BREAKPOINT
       | .waitForSource => .CLIENT_SOURCE
       | _ => c._debuggerObj.engineMode) := by
  unfold dispatch
  cases switchArm env.P message[0]? <;> simp only
  · rw [onParse_debugger]
  · rfl
  · rw [onMemstats_debugger]
  · exact onHit_mode env c message
  · rfl
  · exact onBacktrace_mode env c message
  · rw [onEvalResult_debugger]
  · rw [onOutputResult_debugger]
  · exact onWaitForSource_mode env c
  · rw [abortConnection_debugger]

/-- The engine mode after `onmessage`: as before, or that of the arm. -/
theorem onmessage_mode (env : Env) (c : Conn) (message : Bytes) :
    (onmessage env c message).conn._debuggerObj.engineMode = c._debuggerObj.engineMode ∨
    (onmessage env c message).conn._debuggerObj.engineMode =
      (match switchArm env.P message[0]? with
       | .hit => .BREAKPOINT
       | .waitForSource => .CLIENT_SOURCE
       | _ => c._debuggerObj.engineMode) := by
  unfold onmessage
  split_ifs
  · left; rw [abortConnection_debugger]
  · left; exact configure_mode env c message
  · split
    · left; rw [forward_debugger]
    · right; exact dispatch_mode env c message

/-- C20 (the claim as stated fails): a breakpoint hit received in engine mode
CLIENT_SOURCE changes the mode to BREAKPOINT, and a CONTINUE command sent in
engine mode CLIENT_SOURCE changes it to RUN; neither change is one of RUN to
BREAKPOINT, BREAKPOINT to RUN, or RUN or BREAKPOINT to CLIENT_SOURCE. -/
theorem client_source_left_by_hit :
    (onmessage sampleEnv
      { readyConn with _debuggerObj := { readyConn._debuggerObj with engineMode := .CLIENT_SOURCE } }
      [16, 5, 0, 0, 0, 0, 0, 0, 0]).conn._debuggerObj.engineMode = .BREAKPOINT ∧
    (Connection.send sampleEnv
      { readyConn with _debuggerObj := { readyConn._debuggerObj with engineMode := .CLIENT_SOURCE } }
      [11]).conn._debuggerObj.engineMode = .RUN ∧
    (onmessage sampleEnv
      { readyConn with _debuggerObj := { readyConn._debuggerObj with engineMode := .DISCONNECTED } }
      [24]).conn._debuggerObj.engineMode = .CLIENT_SOURCE := by
  decide

/-- C20 (amended): over the steps `onmessage` and `send`, every change of
engine mode is one of: any mode to BREAKPOINT on a BREAKPOINT_HIT or
EXCEPTION_HIT message, any mode to CLIENT_SOURCE on a WAIT_FOR_SOURCE
message, or any mode to RUN on a sent CONTINUE, STEP or NEXT command; no
other inbound message and no other sent command changes the mode, and with
pairwise distinct opcodes the memory-stats, release, exception-string, eval,
output and backtrace messages never change it. -/
theorem engine_mode_transitions (env : Env) (c : Conn) (message : Bytes) :
    ((onmessage env c message).conn._debuggerObj.engineMode = c._debuggerObj.engineMode ∨
      ((onmessage env c message).conn._debuggerObj.engineMode = .BREAKPOINT ∧
        (message[0]? = some env.P.JERRY_DEBUGGER_BREAKPOINT_HIT ∨
          message[0]? = some env.P.JERRY_DEBUGGER_EXCEPTION_HIT)) ∨
      ((onmessage env c message).conn._debuggerObj.engineMode = .CLIENT_SOURCE ∧
        message[0]? = some env.P.JERRY_DEBUGGER_WAIT_FOR_SOURCE)) ∧
    ((Connection.send env c message).conn._debuggerObj.engineMode =
        c._debuggerObj.engineMode ∨
      ((Connection.send env c message).conn._debuggerObj.engineMode = .RUN ∧
        (message[0]? = some env.P.JERRY_DEBUGGER_CONTINUE ∨
          message[0]? = some env.P.JERRY_DEBUGGER_STEP ∨
          message[0]? = some env.P.JERRY_DEBUGGER_NEXT))) ∧
    (env.P.serverOpcodes.Nodup →
      (message[0]? = some env.P.JERRY_DEBUGGER_MEMSTATS_RECEIVE ∨
        message[0]? = some env.P.JERRY_DEBUGGER_RELEASE_BYTE_CODE_CP ∨
        message[0]? = some env.P.JERRY_DEBUGGER_EXCEPTION_STR ∨
        message[0]? = some env.P.JERRY_DEBUGGER_EXCEPTION_STR_END ∨
        message[0]? = some env.P.JERRY_DEBUGGER_EVAL_RESULT ∨
        message[0]? = some env.P.JERRY_DEBUGGER_EVAL_RESULT_END ∨
        message[0]? = some env.P.JERRY_DEBUGGER_OUTPUT_RESULT ∨
        message[0]? = some env.P.JERRY_DEBUGGER_OUTPUT_RESULT_END ∨
        message[0]? = some env.P.JERRY_DEBUGGER_BACKTRACE ∨
        message[0]? = some env.P.JERRY_DEBUGGER_BACKTRACE_END) →
      (onmessage env c message).conn._debuggerObj.engineMode = c._debuggerObj.engineMode) := by
  refine ⟨?_, ?_, ?_⟩
  · rcases onmessage_mode env c message with h | h
    · exact Or.inl h
    · cases harm : switchArm env.P message[0]? <;> rw [harm] at h <;>
        first
        | exact Or.inl h
        | exact Or.inr (Or.inl ⟨h, switchArm_hit_inv env.P _ harm⟩)
        | exact Or.inr (Or.inr ⟨h, switchArm_waitForSource_inv env.P _ harm⟩)
  · unfold Connection.send
    split
    · exact Or.inl rfl
    · simp only [Conn.emit, Conn.setEngineMode]
      split_ifs with h
      · exact Or.inr ⟨rfl, h⟩
      · exact Or.inl rfl
  · intro hnodup hop
    rcases onmessage_mode env c message with h | h
    · exact h
    · have harm : switchArm env.P message[0]? = .memstats ∨
          switchArm env.P message[0]? = .release ∨
          switchArm env.P message[0]? = .exceptionStr ∨
          switchArm env.P message[0]? = .evalResult ∨
          switchArm env.P message[0]? = .outputResult ∨
          switchArm env.P message[0]? = .backtrace := by
        rcases hop with e | e | e | e | e | e | e | e | e | e <;> rw [e]
        · exact Or.inl (switchArm_memstats env.P hnodup)
        · exact Or.inr (Or.inl (switchArm_release env.P hnodup))
        · exact Or.inr (Or.inr (Or.inl (switchArm_exceptionStr env.P hnodup).1))
        · exact Or.inr (Or.inr (Or.inl (switchArm_exceptionStr env.P hnodup).2))
        · exact Or.inr (Or.inr (Or.inr (Or.inl (switchArm_evalResult env.P hnodup).1)))
        · exact Or.inr (Or.inr (Or.inr (Or.inl (switchArm_evalResult env.P hnodup).2)))
        · exact Or.inr (Or.inr (Or.inr (Or.inr (Or.inl (switchArm_outputResult env.P hnodup).1))))
        · exact Or.inr (Or.inr (Or.inr (Or.inr (Or.inl (switchArm_outputResult env.P hnodup).2))))
        · exact Or.inr (Or.inr (Or.inr (Or.inr (Or.inr (switchArm_backtrace env.P hnodup).1))))
        · exact Or.inr (Or.inr (Or.inr (Or.inr (Or.inr (switchArm_backtrace env.P hnodup).2))))
      rcases harm with e | e | e | e | e | e <;> rw [e] at h <;> exact h

theorem engine_mode_transitions_witness :
    (onmessage sampleEnv
      { readyConn with _debuggerObj := { readyConn._debuggerObj with engineMode := .BREAKPOINT } }
      [15, 0, 0, 0, 0]).conn._debuggerObj.engineMode = .BREAKPOINT :=
  (engine_mode_transitions sampleEnv
    { readyConn with _debuggerObj := { readyConn._debuggerObj with engineMode := .BREAKPOINT } }
    [15, 0, 0, 0, 0]).2.2 sampleProtocol_nodup (Or.inl rfl)

/-- One pass of a loop that starts at `i < L` and steps by `s > 0` leaves one
pass fewer: the number of passes is the quotient of `L - i` by `s`, rounded
up. -/
theorem ceil_step (L i s : Nat) (hs : 0 < s) (hlt : i < L) :
    (L - i + (s - 1)) / s = (L - (i + s) + (s - 1)) / s + 1 := by
  by_cases h : i + s ≤ L
  · have e : L - i + (s - 1) = L - (i + s) + (s - 1) + s := by omega
    rw [e, Nat.add_div_right _ hs]
  · have e0 : L - (i + s) = 0 := by omega
    have e1 : (s - 1) / s = 0 := Nat.div_eq_of_lt (by omega)
    rw [e0, Nat.zero_add, e1]
    exact Nat.div_eq_of_lt_le (by omega) (by omega)

/-- The record loop always ends, and whether it returns or a lookup throws it
has added at most the rounded-up quotient of `L - i` by the stride to the
trace. -/
theorem backtraceLoop_trace_bound (env : Env) (message : Bytes) :
    ∀ (n i : Nat) (c : Conn), message.length - i = n →
      (backtraceLoop env message i c).conn.trace.length ≤
        c.trace.length +
          (message.length - i + (c._debuggerObj.cPointerSize + 3)) /
            (c._debuggerObj.cPointerSize + 4) := by
  intro n
  induction n using Nat.strong_induction_on with
  | _ n ih =>
    intro i c hn
    rw [backtraceLoop]
    by_cases hlt : i < message.length
    · rw [if_pos hlt]
      simp only
      split
      · exact Nat.le_add_right _ _
      · refine Nat.le_trans (ih _ ?_ _ _ rfl) ?_
        · simp only [Conn.setBacktraceFrame, Conn.emit]
          omega
        · have hstep : (message.length - i + (c._debuggerObj.cPointerSize + 3)) /
                (c._debuggerObj.cPointerSize + 4) =
              (message.length - (i + (c._debuggerObj.cPointerSize + 4)) +
                (c._debuggerObj.cPointerSize + 3)) / (c._debuggerObj.cPointerSize + 4) + 1 :=
            ceil_step message.length i (c._debuggerObj.cPointerSize + 4) (by omega) hlt
          simp only [Conn.setBacktraceFrame, Conn.emit, List.length_append,
            List.length_singleton]
          rw [hstep]
          omega
    · rw [if_neg hlt]
      exact Nat.le_add_right _ _

/-- The offsets of the passes for a list of as many records as the rounded-up
quotient of `L - 1` by the stride: every record starts inside the message and
the message ends by the offset after the last one. -/
theorem ceil_offsets (L s k : Nat) (hs : 0 < s) (hk : k = (L - 1 + (s - 1)) / s) :
    (∀ t, t < k → 1 + t * s < L) ∧ L ≤ 1 + k * s := by
  constructor
  · intro t ht
    have h1 : (t + 1) * s ≤ k * s := Nat.mul_le_mul_right s ht
    have h2 : k * s ≤ L - 1 + (s - 1) := by
      rw [hk]; exact Nat.div_mul_le_self _ _
    rw [Nat.succ_mul] at h1
    omega
  · have h3 : L - 1 + (s - 1) < (k + 1) * s := by
      rw [hk, Nat.mul_comm]
      exact Nat.lt_mul_div_succ _ hs
    rw [Nat.succ_mul] at h3
    omega

theorem onmessage_onBacktrace (env : Env) (c : Conn) (message : Bytes)
    (hnodup : env.P.serverOpcodes.Nodup)
    (hready : c._debuggerObj.cPointerSize ≠ 0) (hp : c._parseObj = none)
    (hop : message[0]? = some env.P.JERRY_DEBUGGER_BACKTRACE ∨
      message[0]? = some env.P.JERRY_DEBUGGER_BACKTRACE_END) :
    onmessage env c message = onBacktrace env c message := by
  have hne : message ≠ [] := by
    rcases hop with h | h <;> exact ne_nil_of_head _ _ h
  have harm : switchArm env.P message[0]? = .backtrace := by
    rcases hop with h | h <;> rw [h]
    · exact (switchArm_backtrace env.P hnodup).1
    · exact (switchArm_backtrace env.P hnodup).2
  rw [onmessage_dispatch env c message hne hready hp]
  unfold dispatch
  rw [harm]

theorem onBacktrace_trace_bound (env : Env) (c : Conn) (message : Bytes) :
    (onBacktrace env c message).conn.trace.length ≤
      c.trace.length + 1 +
        (message.length - 1 + (c._debuggerObj.cPointerSize + 3)) /
          (c._debuggerObj.cPointerSize + 4) := by
  have hb := backtraceLoop_trace_bound env message _ 1
    (c.emit (.dom "clearElement #backtrace-table-body")) rfl
  have hc : (c.emit (.dom "clearElement #backtrace-table-body")).trace.length =
      c.trace.length + 1 := by simp [Conn.emit]
  rw [hc] at hb
  unfold onBacktrace
  simp only
  cases hl : backtraceLoop env message 1 (c.emit (.dom "clearElement #backtrace-table-body")) with
  | thrown e c1 =>
    rw [hl] at hb
    exact hb
  | returned c1 =>
    rw [hl] at hb
    simp only [Outcome.andThen]
    split_ifs <;> exact hb

/-- C21: the record loop of the backtrace arm terminates. With stored pointer
size 0 a BACKTRACE or BACKTRACE_END message goes to the handshake branch, so
the arm runs only with a pointer size `p` above 0. For such `p`, no stored
sub-parser and a message of byte length `L`, the handler always ends and has
made at most `ceil((L - 1) / (p + 4))` frame reports; when the records at the
offsets `1 + t (p + 4)` all resolve it returns after exactly that many passes,
one report and one increment of the frame index each. An opcode-only message
(`L = 1`) reports no frame, and the frame index is 0 afterwards for
BACKTRACE_END and unchanged for BACKTRACE. -/
theorem backtrace_loop_terminates (env : Env) (c : Conn) (message : Bytes)
    (hnodup : env.P.serverOpcodes.Nodup) (hp : c._parseObj = none)
    (hop : message[0]? = some env.P.JERRY_DEBUGGER_BACKTRACE ∨
      message[0]? = some env.P.JERRY_DEBUGGER_BACKTRACE_END) :
    (c._debuggerObj.cPointerSize = 0 → onmessage env c message = configure env c message) ∧
    (c._debuggerObj.cPointerSize ≠ 0 →
      (onmessage env c message).conn.trace.length ≤
        c.trace.length + 1 +
          (message.length - 1 + (c._debuggerObj.cPointerSize + 3)) /
            (c._debuggerObj.cPointerSize + 4) ∧
      (∀ records : List Breakpoint,
        records.length =
          (message.length - 1 + (c._debuggerObj.cPointerSize + 3)) /
            (c._debuggerObj.cPointerSize + 4) →
        (∀ t (ht : t < records.length),
          env.getBreakpoint (env.decodeMessage c._debuggerObj.cPointerSize
            c._debuggerObj.littleEndian "CI" message
            (1 + t * (c._debuggerObj.cPointerSize + 4))) = some records[t]) →
        onmessage env c message =
          .returned { c.setBacktraceFrame
              (if message[0]? = some env.P.JERRY_DEBUGGER_BACKTRACE_END then 0
                else c._debuggerObj.backtraceFrame + records.length) with
            trace := c.trace ++ Event.dom "clearElement #backtrace-table-body" ::
              frameReports c._debuggerObj.backtraceFrame records }) ∧
      (message.length = 1 →
        onmessage env c message =
          .returned { c.setBacktraceFrame
              (if message[0]? = some env.P.JERRY_DEBUGGER_BACKTRACE_END then 0
                else c._debuggerObj.backtraceFrame) with
            trace := c.trace ++ [Event.dom "clearElement #backtrace-table-body"] })) := by
  have hne : message ≠ [] := by
    rcases hop with h | h <;> exact ne_nil_of_head _ _ h
  refine ⟨fun h0 => onmessage_configure env c message hne h0, fun hready => ⟨?_, ?_, ?_⟩⟩
  · rw [onmessage_onBacktrace env c message hnodup hready hp hop]
    exact onBacktrace_trace_bound env c message
  · intro records hk hres
    have ho := ceil_offsets message.length (c._debuggerObj.cPointerSize + 4) records.length
      (by omega) hk
    exact onmessage_backtrace env c message records hnodup hready hp hop ho.1 ho.2 hres
  · intro hl
    have h := onmessage_backtrace env c message [] hnodup hready hp hop
      (fun t ht => absurd ht (Nat.not_lt_zero t)) (by rw [hl]; exact Nat.le_add_right _ _)
      (fun t ht => absurd ht (Nat.not_lt_zero t))
    rw [h]
    rfl

theorem backtrace_loop_terminates_witness :
    onmessage sampleEnv
        { readyConn with _debuggerObj := { readyConn._debuggerObj with backtraceFrame := 3 } }
        [21] =
      .returned { readyConn with
        _debuggerObj := { readyConn._debuggerObj with backtraceFrame := 0 }
        trace := readyConn.trace ++ [Event.dom "clearElement #backtrace-table-body"] } ∧
    (onmessage sampleEnv readyConn
      [20, 9, 0, 0, 0, 0, 0, 0, 0, 1, 0]).conn.trace.length ≤ readyConn.trace.length + 1 + 2 :=
  ⟨((backtrace_loop_terminates sampleEnv
      { readyConn with _debuggerObj := { readyConn._debuggerObj with backtraceFrame := 3 } }
      [21] sampleProtocol_nodup rfl (Or.inr rfl)).2 (by decide)).2.2 rfl,
   ((backtrace_loop_terminates sampleEnv readyConn [20, 9, 0, 0, 0, 0, 0, 0, 0, 1, 0]
      sampleProtocol_nodup rfl (Or.inl rfl)).2 (by decide)).1⟩

/-- C1 (the code departs from the claim): a first message that is not an
accepted configuration does not abort the connection. For `[1, 64, 4, 1, 4]`
(version 4, supported version 3) and for `[1, 64, 3, 1, 3]` (pointer size 3)
the four setters have run before the checks, the call
`this._socket.abortConnection(reason)` only throws an assertion error, and
the transport reference is kept: the connection is left ready with the
rejected values stored, and the next message is dispatched (the output "hi"
is printed). When `Util.assert` does not throw, the WebSocket is closed but
the handler still ends in a TypeError with the transport reference kept. -/
theorem rejected_handshake_leaves_connection_open :
    onmessage sampleEnv freshConn [1, 64, 4, 1, 4] =
      .thrown .assertionFailed
        { freshConn with
          _debuggerObj := { freshDebugger with
            maxMessageSize := 64, cPointerSize := 4, littleEndian := true, protocolVersion := 4 }
          trace := freshConn.trace ++
            [Event.abortConnection "Incorrect debugger version from target."] } ∧
    run sampleEnv freshConn [.onmessage [1, 64, 4, 1, 4], .onmessage [26, 104, 105, 1]] =
      { freshConn with
        _debuggerObj := { freshDebugger with
          maxMessageSize := 64, cPointerSize := 4, littleEndian := true, protocolVersion := 4 }
        trace := freshConn.trace ++
          [Event.abortConnection "Incorrect debugger version from target.",
           Event.outputInfo "hi"] } ∧
    onmessage sampleEnv freshConn [1, 64, 3, 1, 3] =
      .thrown .assertionFailed
        { freshConn with
          _debuggerObj := { freshDebugger with
            maxMessageSize := 64, cPointerSize := 3, littleEndian := true, protocolVersion := 3 }
          trace := freshConn.trace ++
            [Event.abortConnection "compressed pointer must be 2 or 4 bytes long."] } ∧
    (onmessage sampleEnv freshConn [1, 64, 3, 1, 3]).conn._socket = freshConn._socket ∧
    onmessage { sampleEnv with assertThrows := false } freshConn [2] =
      .thrown .typeError
        { freshConn with
          trace := freshConn.trace ++
            [Event.abortConnection "the first message must be configuration.",
             Event.socketClose] } := by
  decide

/-- C4 (the code departs from the claim): an unexpected opcode is not fatal.
In a ready state the message `[200]`, and likewise a CONFIGURATION message
received after the handshake, ends in the call
`this._socket.abortConnection('unexpected message.')`, which only throws an
assertion error: the transport reference is kept, nothing is closed, and the
next message is handled as usual (the output "hi" is printed), so the
message is skipped and the connection continues. When `Util.assert` does not
throw, the WebSocket is closed but the handler ends in a TypeError with the
transport reference kept and no reason logged. -/
theorem unexpected_opcode_is_skipped :
    onmessage sampleEnv readyConn [200] =
      .thrown .assertionFailed
        { readyConn with
          trace := readyConn.trace ++ [Event.abortConnection "unexpected message."] } ∧
    run sampleEnv readyConn [.onmessage [200], .onmessage [26, 104, 105, 1]] =
      { readyConn with
        trace := readyConn.trace ++
          [Event.abortConnection "unexpected message.", Event.outputInfo "hi"] } ∧
    run sampleEnv readyConn [.onmessage [1, 64, 4, 1, 3], .onmessage [26, 104, 105, 1]] =
      { readyConn with
        trace := readyConn.trace ++
          [Event.abortConnection "unexpected message.", Event.outputInfo "hi"] } ∧
    onmessage { sampleEnv with assertThrows := false } readyConn [200] =
      .thrown .typeError
        { readyConn with
          trace := readyConn.trace ++
            [Event.abortConnection "unexpected message.", Event.socketClose] } := by
  decide

/-- C5 (the code departs from the claim): an empty message does not abort the
connection. With an open socket the handler ends in the call
`this._socket.abortConnection('message too short.')`, which only throws an
assertion error that does not carry the reason; the transport reference is
kept and the next message is handled as usual (the output "hi" is printed).
When `Util.assert` does not throw, the WebSocket is closed but the handler
ends in a TypeError with the transport reference kept. With `this._socket`
equal to `null` the handler throws a TypeError before any abort call. -/
theorem empty_message_is_skipped :
    onmessage sampleEnv readyConn [] =
      .thrown .assertionFailed
        { readyConn with
          trace := readyConn.trace ++ [Event.abortConnection "message too short."] } ∧
    run sampleEnv readyConn [.onmessage [], .onmessage [26, 104, 105, 1]] =
      { readyConn with
        trace := readyConn.trace ++
          [Event.abortConnection "message too short.", Event.outputInfo "hi"] } ∧
    onmessage { sampleEnv with assertThrows := false } readyConn [] =
      .thrown .typeError
        { readyConn with
          trace := readyConn.trace ++
            [Event.abortConnection "message too short.", Event.socketClose] } ∧
    onmessage sampleEnv { readyConn with _socket := none } [] =
      .thrown .typeError { readyConn with _socket := none } := by
  decide

end ClientConnection
